import Mathlib

/-!
Verification of the text-to-blocks parser of the copione repository.

The parsing pipeline of src/app.py is embedded shallowly: strings are
lists of characters, each regular-expression substitution of the source
is translated into a structurally recursive scan with the same
left-to-right, leftmost-match semantics, and the line loop of
parse_script_from_pdf becomes a fold over an explicit parser state.
The PDF extraction step is out of scope (per the spec the parser input
is the list of per-page text strings); parseScript below starts from
that list, exactly as the source does after extraction.
-/

set_option maxRecDepth 10000

namespace Copione

/-- Strings are modelled as lists of characters. -/
abbrev Str := List Char

/-- Characters of a Lean string literal, used to write test inputs. -/
def chars (s : String) : Str := s.data

/-- The set of characters matched by the regex class backslash-s and
stripped by str.strip in CPython (Unicode whitespace). -/
def pySpace (c : Char) : Bool :=
  c = ' ' || c = '\t' || c = '\n' || c = '\r' || c = '\x0b' || c = '\x0c' ||
  c = '\x1c' || c = '\x1d' || c = '\x1e' || c = '\x1f' || c = '\x85' ||
  c = '\u00A0' || c = '\u1680' || ('\u2000' ≤ c && c ≤ '\u200A') ||
  c = '\u2028' || c = '\u2029' || c = '\u202F' || c = '\u205F' || c = '\u3000'

/-- Python str.strip: drop leading and trailing whitespace. -/
def pyStrip (s : Str) : Str :=
  ((s.dropWhile pySpace).reverse.dropWhile pySpace).reverse

/-- Line-terminator characters recognized by Python str.splitlines. -/
def isLineBreakChar (c : Char) : Bool :=
  c = '\n' || c = '\r' || c = '\x0b' || c = '\x0c' || c = '\x1c' ||
  c = '\x1d' || c = '\x1e' || c = '\x85' || c = '\u2028' || c = '\u2029'

/-- Helper of pySplitlines: accumulates the current line in buf. -/
def pslAux (buf : Str) : Str → List Str
  | [] => [buf]
  | '\r' :: '\n' :: s => buf :: (match s with | [] => [] | _ :: _ => pslAux [] s)
  | c :: s =>
    if isLineBreakChar c then
      buf :: (match s with | [] => [] | _ :: _ => pslAux [] s)
    else pslAux (buf ++ [c]) s

/-- Python str.splitlines: split at line terminators, no trailing empty line. -/
def pySplitlines (s : Str) : List Str :=
  match s with
  | [] => []
  | _ :: _ => pslAux [] s

/-!  Text normalizer (_preclean_text), one definition per substitution,
applied in the exact source order. -/

/-- Step 1 of _preclean_text: text.replace of carriage returns with nothing. -/
def removeCR (s : Str) : Str := s.filter (fun c => !(c = '\r'))

/-- Step 2: re.sub of one to three asterisks with nothing; the scan removes
up to three asterisks per match, left to right. -/
def removeStars : Str → Str
  | [] => []
  | '*' :: '*' :: '*' :: s => removeStars s
  | '*' :: '*' :: s => removeStars s
  | '*' :: s => removeStars s
  | c :: s => c :: removeStars s

/-- Scanner state for the multiline substitution of leading underscores:
norm tracks whether the position is at a line start; unders is inside the
underscore run; ws is inside the trailing whitespace run and tracks whether
the last consumed whitespace character was a newline (which makes the
position after the match a line start again). -/
inductive SluSt
  | norm (atStart : Bool)
  | unders
  | ws (lastNl : Bool)

/-- Step 3: re.sub, multiline, of a line-leading underscore run plus
following whitespace (the whitespace class includes newlines) with nothing. -/
def sluAux : SluSt → Str → Str
  | _, [] => []
  | SluSt.norm atStart, c :: s =>
    if atStart && c = '_' then sluAux SluSt.unders s
    else c :: sluAux (SluSt.norm (c = '\n')) s
  | SluSt.unders, c :: s =>
    if c = '_' then sluAux SluSt.unders s
    else if pySpace c then sluAux (SluSt.ws (c = '\n')) s
    else c :: sluAux (SluSt.norm false) s
  | SluSt.ws lastNl, c :: s =>
    if pySpace c then sluAux (SluSt.ws (c = '\n')) s
    else if lastNl && c = '_' then sluAux SluSt.unders s
    else c :: sluAux (SluSt.norm false) s

/-- Step 3 wrapper: the scan starts at a line start. -/
def stripLeadUnd (s : Str) : Str := sluAux (SluSt.norm true) s

/-- Scanner state for the multiline substitution of trailing underscores:
ws buffers a pending whitespace run, und buffers pending whitespace plus
underscore runs; the buffers are emitted when the match fails and dropped
when an end of line or end of input confirms the match. The newline that
confirms a match is not consumed by it: the scan resumes at that newline,
which can start the whitespace run of the next match. -/
inductive StuSt
  | norm
  | ws (buf : Str)
  | und (wbuf : Str) (ubuf : Str)

/-- Step 4: re.sub, multiline, of a whitespace run plus underscore run
anchored at end of line (the whitespace class includes newlines) with
nothing. -/
def stuAux : StuSt → Str → Str
  | StuSt.norm, [] => []
  | StuSt.ws buf, [] => buf
  | StuSt.und _ _, [] => []
  | StuSt.norm, c :: s =>
    if c = '_' then stuAux (StuSt.und [] ['_']) s
    else if pySpace c then stuAux (StuSt.ws [c]) s
    else c :: stuAux StuSt.norm s
  | StuSt.ws buf, c :: s =>
    if c = '_' then stuAux (StuSt.und buf ['_']) s
    else if pySpace c then stuAux (StuSt.ws (buf ++ [c])) s
    else buf ++ c :: stuAux StuSt.norm s
  | StuSt.und wbuf ubuf, c :: s =>
    if c = '_' then stuAux (StuSt.und wbuf (ubuf ++ ['_'])) s
    else if c = '\n' then stuAux (StuSt.ws ['\n']) s
    else if pySpace c then wbuf ++ ubuf ++ stuAux (StuSt.ws [c]) s
    else wbuf ++ ubuf ++ c :: stuAux StuSt.norm s

/-- Step 4 wrapper. -/
def stripTrailUnd (s : Str) : Str := stuAux StuSt.norm s

/-- Step 5a: str.replace of backslash-open-paren with open paren. -/
def replEscOpen : Str → Str
  | [] => []
  | '\\' :: '(' :: s => '(' :: replEscOpen s
  | c :: s => c :: replEscOpen s

/-- Step 5b: str.replace of backslash-close-paren with close paren. -/
def replEscClose : Str → Str
  | [] => []
  | '\\' :: ')' :: s => ')' :: replEscClose s
  | c :: s => c :: replEscClose s

/-- Scanner state for colon normalization: ws buffers a pending whitespace
run that may precede a colon; skipws consumes the whitespace following a
matched colon. -/
inductive NcSt
  | norm
  | ws (buf : Str)
  | skipws

/-- Step 6: re.sub of whitespace-colon-whitespace with colon-space (the
whitespace class includes newlines). -/
def ncAux : NcSt → Str → Str
  | NcSt.norm, [] => []
  | NcSt.ws buf, [] => buf
  | NcSt.skipws, [] => []
  | NcSt.norm, c :: s =>
    if c = ':' then ':' :: ' ' :: ncAux NcSt.skipws s
    else if pySpace c then ncAux (NcSt.ws [c]) s
    else c :: ncAux NcSt.norm s
  | NcSt.ws buf, c :: s =>
    if c = ':' then ':' :: ' ' :: ncAux NcSt.skipws s
    else if pySpace c then ncAux (NcSt.ws (buf ++ [c])) s
    else buf ++ c :: ncAux NcSt.norm s
  | NcSt.skipws, c :: s =>
    if c = ':' then ':' :: ' ' :: ncAux NcSt.skipws s
    else if pySpace c then ncAux NcSt.skipws s
    else c :: ncAux NcSt.norm s

/-- Step 6 wrapper. -/
def normColons (s : Str) : Str := ncAux NcSt.norm s

/-- The character class of step 7: tab, vertical tab, form feed,
non-breaking space. -/
def isTabLike (c : Char) : Bool :=
  c = '\t' || c = '\x0b' || c = '\x0c' || c = '\u00A0'

/-- Step 7: re.sub of a run of tab-like characters with a single space. -/
def ctAux (skipping : Bool) : Str → Str
  | [] => []
  | c :: s =>
    if isTabLike c then
      if skipping then ctAux true s else ' ' :: ctAux true s
    else c :: ctAux false s

/-- Step 7 wrapper. -/
def collapseTabs (s : Str) : Str := ctAux false s

/-- The full _preclean_text normalizer, steps in source order. -/
def precleanText (s : Str) : Str :=
  collapseTabs (normColons (replEscClose (replEscOpen
    (stripTrailUnd (stripLeadUnd (removeStars (removeCR s)))))))

/-!  Section heading detection (_is_section_heading). -/

/-- The full uppercase table of CPython str.upper: one entry for every
code point (written in hexadecimal) whose uppercase expansion differs
from the character itself, with the expansion; generated from the same
Unicode data CPython uses, including the one-to-many expansions such as
the sharp s and the Latin ligatures. -/
def upperTable : List (Char × Str) := [
  (Char.ofNat 0x0061, [Char.ofNat 0x0041]), (Char.ofNat 0x0062, [Char.ofNat 0x0042]),
  (Char.ofNat 0x0063, [Char.ofNat 0x0043]), (Char.ofNat 0x0064, [Char.ofNat 0x0044]),
  (Char.ofNat 0x0065, [Char.ofNat 0x0045]), (Char.ofNat 0x0066, [Char.ofNat 0x0046]),
  (Char.ofNat 0x0067, [Char.ofNat 0x0047]), (Char.ofNat 0x0068, [Char.ofNat 0x0048]),
  (Char.ofNat 0x0069, [Char.ofNat 0x0049]), (Char.ofNat 0x006A, [Char.ofNat 0x004A]),
  (Char.ofNat 0x006B, [Char.ofNat 0x004B]), (Char.ofNat 0x006C, [Char.ofNat 0x004C]),
  (Char.ofNat 0x006D, [Char.ofNat 0x004D]), (Char.ofNat 0x006E, [Char.ofNat 0x004E]),
  (Char.ofNat 0x006F, [Char.ofNat 0x004F]), (Char.ofNat 0x0070, [Char.ofNat 0x0050]),
  (Char.ofNat 0x0071, [Char.ofNat 0x0051]), (Char.ofNat 0x0072, [Char.ofNat 0x0052]),
  (Char.ofNat 0x0073, [Char.ofNat 0x0053]), (Char.ofNat 0x0074, [Char.ofNat 0x0054]),
  (Char.ofNat 0x0075, [Char.ofNat 0x0055]), (Char.ofNat 0x0076, [Char.ofNat 0x0056]),
  (Char.ofNat 0x0077, [Char.ofNat 0x0057]), (Char.ofNat 0x0078, [Char.ofNat 0x0058]),
  (Char.ofNat 0x0079, [Char.ofNat 0x0059]), (Char.ofNat 0x007A, [Char.ofNat 0x005A]),
  (Char.ofNat 0x00B5, [Char.ofNat 0x039C]), (Char.ofNat 0x00DF, [Char.ofNat 0x0053, Char.ofNat 0x0053]),
  (Char.ofNat 0x00E0, [Char.ofNat 0x00C0]), (Char.ofNat 0x00E1, [Char.ofNat 0x00C1]),
  (Char.ofNat 0x00E2, [Char.ofNat 0x00C2]), (Char.ofNat 0x00E3, [Char.ofNat 0x00C3]),
  (Char.ofNat 0x00E4, [Char.ofNat 0x00C4]), (Char.ofNat 0x00E5, [Char.ofNat 0x00C5]),
  (Char.ofNat 0x00E6, [Char.ofNat 0x00C6]), (Char.ofNat 0x00E7, [Char.ofNat 0x00C7]),
  (Char.ofNat 0x00E8, [Char.ofNat 0x00C8]), (Char.ofNat 0x00E9, [Char.ofNat 0x00C9]),
  (Char.ofNat 0x00EA, [Char.ofNat 0x00CA]), (Char.ofNat 0x00EB, [Char.ofNat 0x00CB]),
  (Char.ofNat 0x00EC, [Char.ofNat 0x00CC]), (Char.ofNat 0x00ED, [Char.ofNat 0x00CD]),
  (Char.ofNat 0x00EE, [Char.ofNat 0x00CE]), (Char.ofNat 0x00EF, [Char.ofNat 0x00CF]),
  (Char.ofNat 0x00F0, [Char.ofNat 0x00D0]), (Char.ofNat 0x00F1, [Char.ofNat 0x00D1]),
  (Char.ofNat 0x00F2, [Char.ofNat 0x00D2]), (Char.ofNat 0x00F3, [Char.ofNat 0x00D3]),
  (Char.ofNat 0x00F4, [Char.ofNat 0x00D4]), (Char.ofNat 0x00F5, [Char.ofNat 0x00D5]),
  (Char.ofNat 0x00F6, [Char.ofNat 0x00D6]), (Char.ofNat 0x00F8, [Char.ofNat 0x00D8]),
  (Char.ofNat 0x00F9, [Char.ofNat 0x00D9]), (Char.ofNat 0x00FA, [Char.ofNat 0x00DA]),
  (Char.ofNat 0x00FB, [Char.ofNat 0x00DB]), (Char.ofNat 0x00FC, [Char.ofNat 0x00DC]),
  (Char.ofNat 0x00FD, [Char.ofNat 0x00DD]), (Char.ofNat 0x00FE, [Char.ofNat 0x00DE]),
  (Char.ofNat 0x00FF, [Char.ofNat 0x0178]), (Char.ofNat 0x0101, [Char.ofNat 0x0100]),
  (Char.ofNat 0x0103, [Char.ofNat 0x0102]), (Char.ofNat 0x0105, [Char.ofNat 0x0104]),
  (Char.ofNat 0x0107, [Char.ofNat 0x0106]), (Char.ofNat 0x0109, [Char.ofNat 0x0108]),
  (Char.ofNat 0x010B, [Char.ofNat 0x010A]), (Char.ofNat 0x010D, [Char.ofNat 0x010C]),
  (Char.ofNat 0x010F, [Char.ofNat 0x010E]), (Char.ofNat 0x0111, [Char.ofNat 0x0110]),
  (Char.ofNat 0x0113, [Char.ofNat 0x0112]), (Char.ofNat 0x0115, [Char.ofNat 0x0114]),
  (Char.ofNat 0x0117, [Char.ofNat 0x0116]), (Char.ofNat 0x0119, [Char.ofNat 0x0118]),
  (Char.ofNat 0x011B, [Char.ofNat 0x011A]), (Char.ofNat 0x011D, [Char.ofNat 0x011C]),
  (Char.ofNat 0x011F, [Char.ofNat 0x011E]), (Char.ofNat 0x0121, [Char.ofNat 0x0120]),
  (Char.ofNat 0x0123, [Char.ofNat 0x0122]), (Char.ofNat 0x0125, [Char.ofNat 0x0124]),
  (Char.ofNat 0x0127, [Char.ofNat 0x0126]), (Char.ofNat 0x0129, [Char.ofNat 0x0128]),
  (Char.ofNat 0x012B, [Char.ofNat 0x012A]), (Char.ofNat 0x012D, [Char.ofNat 0x012C]),
  (Char.ofNat 0x012F, [Char.ofNat 0x012E]), (Char.ofNat 0x0131, [Char.ofNat 0x0049]),
  (Char.ofNat 0x0133, [Char.ofNat 0x0132]), (Char.ofNat 0x0135, [Char.ofNat 0x0134]),
  (Char.ofNat 0x0137, [Char.ofNat 0x0136]), (Char.ofNat 0x013A, [Char.ofNat 0x0139]),
  (Char.ofNat 0x013C, [Char.ofNat 0x013B]), (Char.ofNat 0x013E, [Char.ofNat 0x013D]),
  (Char.ofNat 0x0140, [Char.ofNat 0x013F]), (Char.ofNat 0x0142, [Char.ofNat 0x0141]),
  (Char.ofNat 0x0144, [Char.ofNat 0x0143]), (Char.ofNat 0x0146, [Char.ofNat 0x0145]),
  (Char.ofNat 0x0148, [Char.ofNat 0x0147]), (Char.ofNat 0x0149, [Char.ofNat 0x02BC, Char.ofNat 0x004E]),
  (Char.ofNat 0x014B, [Char.ofNat 0x014A]), (Char.ofNat 0x014D, [Char.ofNat 0x014C]),
  (Char.ofNat 0x014F, [Char.ofNat 0x014E]), (Char.ofNat 0x0151, [Char.ofNat 0x0150]),
  (Char.ofNat 0x0153, [Char.ofNat 0x0152]), (Char.ofNat 0x0155, [Char.ofNat 0x0154]),
  (Char.ofNat 0x0157, [Char.ofNat 0x0156]), (Char.ofNat 0x0159, [Char.ofNat 0x0158]),
  (Char.ofNat 0x015B, [Char.ofNat 0x015A]), (Char.ofNat 0x015D, [Char.ofNat 0x015C]),
  (Char.ofNat 0x015F, [Char.ofNat 0x015E]), (Char.ofNat 0x0161, [Char.ofNat 0x0160]),
  (Char.ofNat 0x0163, [Char.ofNat 0x0162]), (Char.ofNat 0x0165, [Char.ofNat 0x0164]),
  (Char.ofNat 0x0167, [Char.ofNat 0x0166]), (Char.ofNat 0x0169, [Char.ofNat 0x0168]),
  (Char.ofNat 0x016B, [Char.ofNat 0x016A]), (Char.ofNat 0x016D, [Char.ofNat 0x016C]),
  (Char.ofNat 0x016F, [Char.ofNat 0x016E]), (Char.ofNat 0x0171, [Char.ofNat 0x0170]),
  (Char.ofNat 0x0173, [Char.ofNat 0x0172]), (Char.ofNat 0x0175, [Char.ofNat 0x0174]),
  (Char.ofNat 0x0177, [Char.ofNat 0x0176]), (Char.ofNat 0x017A, [Char.ofNat 0x0179]),
  (Char.ofNat 0x017C, [Char.ofNat 0x017B]), (Char.ofNat 0x017E, [Char.ofNat 0x017D]),
  (Char.ofNat 0x017F, [Char.ofNat 0x0053]), (Char.ofNat 0x0180, [Char.ofNat 0x0243]),
  (Char.ofNat 0x0183, [Char.ofNat 0x0182]), (Char.ofNat 0x0185, [Char.ofNat 0x0184]),
  (Char.ofNat 0x0188, [Char.ofNat 0x0187]), (Char.ofNat 0x018C, [Char.ofNat 0x018B]),
  (Char.ofNat 0x0192, [Char.ofNat 0x0191]), (Char.ofNat 0x0195, [Char.ofNat 0x01F6]),
  (Char.ofNat 0x0199, [Char.ofNat 0x0198]), (Char.ofNat 0x019A, [Char.ofNat 0x023D]),
  (Char.ofNat 0x019E, [Char.ofNat 0x0220]), (Char.ofNat 0x01A1, [Char.ofNat 0x01A0]),
  (Char.ofNat 0x01A3, [Char.ofNat 0x01A2]), (Char.ofNat 0x01A5, [Char.ofNat 0x01A4]),
  (Char.ofNat 0x01A8, [Char.ofNat 0x01A7]), (Char.ofNat 0x01AD, [Char.ofNat 0x01AC]),
  (Char.ofNat 0x01B0, [Char.ofNat 0x01AF]), (Char.ofNat 0x01B4, [Char.ofNat 0x01B3]),
  (Char.ofNat 0x01B6, [Char.ofNat 0x01B5]), (Char.ofNat 0x01B9, [Char.ofNat 0x01B8]),
  (Char.ofNat 0x01BD, [Char.ofNat 0x01BC]), (Char.ofNat 0x01BF, [Char.ofNat 0x01F7]),
  (Char.ofNat 0x01C5, [Char.ofNat 0x01C4]), (Char.ofNat 0x01C6, [Char.ofNat 0x01C4]),
  (Char.ofNat 0x01C8, [Char.ofNat 0x01C7]), (Char.ofNat 0x01C9, [Char.ofNat 0x01C7]),
  (Char.ofNat 0x01CB, [Char.ofNat 0x01CA]), (Char.ofNat 0x01CC, [Char.ofNat 0x01CA]),
  (Char.ofNat 0x01CE, [Char.ofNat 0x01CD]), (Char.ofNat 0x01D0, [Char.ofNat 0x01CF]),
  (Char.ofNat 0x01D2, [Char.ofNat 0x01D1]), (Char.ofNat 0x01D4, [Char.ofNat 0x01D3]),
  (Char.ofNat 0x01D6, [Char.ofNat 0x01D5]), (Char.ofNat 0x01D8, [Char.ofNat 0x01D7]),
  (Char.ofNat 0x01DA, [Char.ofNat 0x01D9]), (Char.ofNat 0x01DC, [Char.ofNat 0x01DB]),
  (Char.ofNat 0x01DD, [Char.ofNat 0x018E]), (Char.ofNat 0x01DF, [Char.ofNat 0x01DE]),
  (Char.ofNat 0x01E1, [Char.ofNat 0x01E0]), (Char.ofNat 0x01E3, [Char.ofNat 0x01E2]),
  (Char.ofNat 0x01E5, [Char.ofNat 0x01E4]), (Char.ofNat 0x01E7, [Char.ofNat 0x01E6]),
  (Char.ofNat 0x01E9, [Char.ofNat 0x01E8]), (Char.ofNat 0x01EB, [Char.ofNat 0x01EA]),
  (Char.ofNat 0x01ED, [Char.ofNat 0x01EC]), (Char.ofNat 0x01EF, [Char.ofNat 0x01EE]),
  (Char.ofNat 0x01F0, [Char.ofNat 0x004A, Char.ofNat 0x030C]), (Char.ofNat 0x01F2, [Char.ofNat 0x01F1]),
  (Char.ofNat 0x01F3, [Char.ofNat 0x01F1]), (Char.ofNat 0x01F5, [Char.ofNat 0x01F4]),
  (Char.ofNat 0x01F9, [Char.ofNat 0x01F8]), (Char.ofNat 0x01FB, [Char.ofNat 0x01FA]),
  (Char.ofNat 0x01FD, [Char.ofNat 0x01FC]), (Char.ofNat 0x01FF, [Char.ofNat 0x01FE]),
  (Char.ofNat 0x0201, [Char.ofNat 0x0200]), (Char.ofNat 0x0203, [Char.ofNat 0x0202]),
  (Char.ofNat 0x0205, [Char.ofNat 0x0204]), (Char.ofNat 0x0207, [Char.ofNat 0x0206]),
  (Char.ofNat 0x0209, [Char.ofNat 0x0208]), (Char.ofNat 0x020B, [Char.ofNat 0x020A]),
  (Char.ofNat 0x020D, [Char.ofNat 0x020C]), (Char.ofNat 0x020F, [Char.ofNat 0x020E]),
  (Char.ofNat 0x0211, [Char.ofNat 0x0210]), (Char.ofNat 0x0213, [Char.ofNat 0x0212]),
  (Char.ofNat 0x0215, [Char.ofNat 0x0214]), (Char.ofNat 0x0217, [Char.ofNat 0x0216]),
  (Char.ofNat 0x0219, [Char.ofNat 0x0218]), (Char.ofNat 0x021B, [Char.ofNat 0x021A]),
  (Char.ofNat 0x021D, [Char.ofNat 0x021C]), (Char.ofNat 0x021F, [Char.ofNat 0x021E]),
  (Char.ofNat 0x0223, [Char.ofNat 0x0222]), (Char.ofNat 0x0225, [Char.ofNat 0x0224]),
  (Char.ofNat 0x0227, [Char.ofNat 0x0226]), (Char.ofNat 0x0229, [Char.ofNat 0x0228]),
  (Char.ofNat 0x022B, [Char.ofNat 0x022A]), (Char.ofNat 0x022D, [Char.ofNat 0x022C]),
  (Char.ofNat 0x022F, [Char.ofNat 0x022E]), (Char.ofNat 0x0231, [Char.ofNat 0x0230]),
  (Char.ofNat 0x0233, [Char.ofNat 0x0232]), (Char.ofNat 0x023C, [Char.ofNat 0x023B]),
  (Char.ofNat 0x023F, [Char.ofNat 0x2C7E]), (Char.ofNat 0x0240, [Char.ofNat 0x2C7F]),
  (Char.ofNat 0x0242, [Char.ofNat 0x0241]), (Char.ofNat 0x0247, [Char.ofNat 0x0246]),
  (Char.ofNat 0x0249, [Char.ofNat 0x0248]), (Char.ofNat 0x024B, [Char.ofNat 0x024A]),
  (Char.ofNat 0x024D, [Char.ofNat 0x024C]), (Char.ofNat 0x024F, [Char.ofNat 0x024E]),
  (Char.ofNat 0x0250, [Char.ofNat 0x2C6F]), (Char.ofNat 0x0251, [Char.ofNat 0x2C6D]),
  (Char.ofNat 0x0252, [Char.ofNat 0x2C70]), (Char.ofNat 0x0253, [Char.ofNat 0x0181]),
  (Char.ofNat 0x0254, [Char.ofNat 0x0186]), (Char.ofNat 0x0256, [Char.ofNat 0x0189]),
  (Char.ofNat 0x0257, [Char.ofNat 0x018A]), (Char.ofNat 0x0259, [Char.ofNat 0x018F]),
  (Char.ofNat 0x025B, [Char.ofNat 0x0190]), (Char.ofNat 0x025C, [Char.ofNat 0xA7AB]),
  (Char.ofNat 0x0260, [Char.ofNat 0x0193]), (Char.ofNat 0x0261, [Char.ofNat 0xA7AC]),
  (Char.ofNat 0x0263, [Char.ofNat 0x0194]), (Char.ofNat 0x0265, [Char.ofNat 0xA78D]),
  (Char.ofNat 0x0266, [Char.ofNat 0xA7AA]), (Char.ofNat 0x0268, [Char.ofNat 0x0197]),
  (Char.ofNat 0x0269, [Char.ofNat 0x0196]), (Char.ofNat 0x026A, [Char.ofNat 0xA7AE]),
  (Char.ofNat 0x026B, [Char.ofNat 0x2C62]), (Char.ofNat 0x026C, [Char.ofNat 0xA7AD]),
  (Char.ofNat 0x026F, [Char.ofNat 0x019C]), (Char.ofNat 0x0271, [Char.ofNat 0x2C6E]),
  (Char.ofNat 0x0272, [Char.ofNat 0x019D]), (Char.ofNat 0x0275, [Char.ofNat 0x019F]),
  (Char.ofNat 0x027D, [Char.ofNat 0x2C64]), (Char.ofNat 0x0280, [Char.ofNat 0x01A6]),
  (Char.ofNat 0x0282, [Char.ofNat 0xA7C5]), (Char.ofNat 0x0283, [Char.ofNat 0x01A9]),
  (Char.ofNat 0x0287, [Char.ofNat 0xA7B1]), (Char.ofNat 0x0288, [Char.ofNat 0x01AE]),
  (Char.ofNat 0x0289, [Char.ofNat 0x0244]), (Char.ofNat 0x028A, [Char.ofNat 0x01B1]),
  (Char.ofNat 0x028B, [Char.ofNat 0x01B2]), (Char.ofNat 0x028C, [Char.ofNat 0x0245]),
  (Char.ofNat 0x0292, [Char.ofNat 0x01B7]), (Char.ofNat 0x029D, [Char.ofNat 0xA7B2]),
  (Char.ofNat 0x029E, [Char.ofNat 0xA7B0]), (Char.ofNat 0x0345, [Char.ofNat 0x0399]),
  (Char.ofNat 0x0371, [Char.ofNat 0x0370]), (Char.ofNat 0x0373, [Char.ofNat 0x0372]),
  (Char.ofNat 0x0377, [Char.ofNat 0x0376]), (Char.ofNat 0x037B, [Char.ofNat 0x03FD]),
  (Char.ofNat 0x037C, [Char.ofNat 0x03FE]), (Char.ofNat 0x037D, [Char.ofNat 0x03FF]),
  (Char.ofNat 0x0390, [Char.ofNat 0x0399, Char.ofNat 0x0308, Char.ofNat 0x0301]), (Char.ofNat 0x03AC, [Char.ofNat 0x0386]),
  (Char.ofNat 0x03AD, [Char.ofNat 0x0388]), (Char.ofNat 0x03AE, [Char.ofNat 0x0389]),
  (Char.ofNat 0x03AF, [Char.ofNat 0x038A]), (Char.ofNat 0x03B0, [Char.ofNat 0x03A5, Char.ofNat 0x0308, Char.ofNat 0x0301]),
  (Char.ofNat 0x03B1, [Char.ofNat 0x0391]), (Char.ofNat 0x03B2, [Char.ofNat 0x0392]),
  (Char.ofNat 0x03B3, [Char.ofNat 0x0393]), (Char.ofNat 0x03B4, [Char.ofNat 0x0394]),
  (Char.ofNat 0x03B5, [Char.ofNat 0x0395]), (Char.ofNat 0x03B6, [Char.ofNat 0x0396]),
  (Char.ofNat 0x03B7, [Char.ofNat 0x0397]), (Char.ofNat 0x03B8, [Char.ofNat 0x0398]),
  (Char.ofNat 0x03B9, [Char.ofNat 0x0399]), (Char.ofNat 0x03BA, [Char.ofNat 0x039A]),
  (Char.ofNat 0x03BB, [Char.ofNat 0x039B]), (Char.ofNat 0x03BC, [Char.ofNat 0x039C]),
  (Char.ofNat 0x03BD, [Char.ofNat 0x039D]), (Char.ofNat 0x03BE, [Char.ofNat 0x039E]),
  (Char.ofNat 0x03BF, [Char.ofNat 0x039F]), (Char.ofNat 0x03C0, [Char.ofNat 0x03A0]),
  (Char.ofNat 0x03C1, [Char.ofNat 0x03A1]), (Char.ofNat 0x03C2, [Char.ofNat 0x03A3]),
  (Char.ofNat 0x03C3, [Char.ofNat 0x03A3]), (Char.ofNat 0x03C4, [Char.ofNat 0x03A4]),
  (Char.ofNat 0x03C5, [Char.ofNat 0x03A5]), (Char.ofNat 0x03C6, [Char.ofNat 0x03A6]),
  (Char.ofNat 0x03C7, [Char.ofNat 0x03A7]), (Char.ofNat 0x03C8, [Char.ofNat 0x03A8]),
  (Char.ofNat 0x03C9, [Char.ofNat 0x03A9]), (Char.ofNat 0x03CA, [Char.ofNat 0x03AA]),
  (Char.ofNat 0x03CB, [Char.ofNat 0x03AB]), (Char.ofNat 0x03CC, [Char.ofNat 0x038C]),
  (Char.ofNat 0x03CD, [Char.ofNat 0x038E]), (Char.ofNat 0x03CE, [Char.ofNat 0x038F]),
  (Char.ofNat 0x03D0, [Char.ofNat 0x0392]), (Char.ofNat 0x03D1, [Char.ofNat 0x0398]),
  (Char.ofNat 0x03D5, [Char.ofNat 0x03A6]), (Char.ofNat 0x03D6, [Char.ofNat 0x03A0]),
  (Char.ofNat 0x03D7, [Char.ofNat 0x03CF]), (Char.ofNat 0x03D9, [Char.ofNat 0x03D8]),
  (Char.ofNat 0x03DB, [Char.ofNat 0x03DA]), (Char.ofNat 0x03DD, [Char.ofNat 0x03DC]),
  (Char.ofNat 0x03DF, [Char.ofNat 0x03DE]), (Char.ofNat 0x03E1, [Char.ofNat 0x03E0]),
  (Char.ofNat 0x03E3, [Char.ofNat 0x03E2]), (Char.ofNat 0x03E5, [Char.ofNat 0x03E4]),
  (Char.ofNat 0x03E7, [Char.ofNat 0x03E6]), (Char.ofNat 0x03E9, [Char.ofNat 0x03E8]),
  (Char.ofNat 0x03EB, [Char.ofNat 0x03EA]), (Char.ofNat 0x03ED, [Char.ofNat 0x03EC]),
  (Char.ofNat 0x03EF, [Char.ofNat 0x03EE]), (Char.ofNat 0x03F0, [Char.ofNat 0x039A]),
  (Char.ofNat 0x03F1, [Char.ofNat 0x03A1]), (Char.ofNat 0x03F2, [Char.ofNat 0x03F9]),
  (Char.ofNat 0x03F3, [Char.ofNat 0x037F]), (Char.ofNat 0x03F5, [Char.ofNat 0x0395]),
  (Char.ofNat 0x03F8, [Char.ofNat 0x03F7]), (Char.ofNat 0x03FB, [Char.ofNat 0x03FA]),
  (Char.ofNat 0x0430, [Char.ofNat 0x0410]), (Char.ofNat 0x0431, [Char.ofNat 0x0411]),
  (Char.ofNat 0x0432, [Char.ofNat 0x0412]), (Char.ofNat 0x0433, [Char.ofNat 0x0413]),
  (Char.ofNat 0x0434, [Char.ofNat 0x0414]), (Char.ofNat 0x0435, [Char.ofNat 0x0415]),
  (Char.ofNat 0x0436, [Char.ofNat 0x0416]), (Char.ofNat 0x0437, [Char.ofNat 0x0417]),
  (Char.ofNat 0x0438, [Char.ofNat 0x0418]), (Char.ofNat 0x0439, [Char.ofNat 0x0419]),
  (Char.ofNat 0x043A, [Char.ofNat 0x041A]), (Char.ofNat 0x043B, [Char.ofNat 0x041B]),
  (Char.ofNat 0x043C, [Char.ofNat 0x041C]), (Char.ofNat 0x043D, [Char.ofNat 0x041D]),
  (Char.ofNat 0x043E, [Char.ofNat 0x041E]), (Char.ofNat 0x043F, [Char.ofNat 0x041F]),
  (Char.ofNat 0x0440, [Char.ofNat 0x0420]), (Char.ofNat 0x0441, [Char.ofNat 0x0421]),
  (Char.ofNat 0x0442, [Char.ofNat 0x0422]), (Char.ofNat 0x0443, [Char.ofNat 0x0423]),
  (Char.ofNat 0x0444, [Char.ofNat 0x0424]), (Char.ofNat 0x0445, [Char.ofNat 0x0425]),
  (Char.ofNat 0x0446, [Char.ofNat 0x0426]), (Char.ofNat 0x0447, [Char.ofNat 0x0427]),
  (Char.ofNat 0x0448, [Char.ofNat 0x0428]), (Char.ofNat 0x0449, [Char.ofNat 0x0429]),
  (Char.ofNat 0x044A, [Char.ofNat 0x042A]), (Char.ofNat 0x044B, [Char.ofNat 0x042B]),
  (Char.ofNat 0x044C, [Char.ofNat 0x042C]), (Char.ofNat 0x044D, [Char.ofNat 0x042D]),
  (Char.ofNat 0x044E, [Char.ofNat 0x042E]), (Char.ofNat 0x044F, [Char.ofNat 0x042F]),
  (Char.ofNat 0x0450, [Char.ofNat 0x0400]), (Char.ofNat 0x0451, [Char.ofNat 0x0401]),
  (Char.ofNat 0x0452, [Char.ofNat 0x0402]), (Char.ofNat 0x0453, [Char.ofNat 0x0403]),
  (Char.ofNat 0x0454, [Char.ofNat 0x0404]), (Char.ofNat 0x0455, [Char.ofNat 0x0405]),
  (Char.ofNat 0x0456, [Char.ofNat 0x0406]), (Char.ofNat 0x0457, [Char.ofNat 0x0407]),
  (Char.ofNat 0x0458, [Char.ofNat 0x0408]), (Char.ofNat 0x0459, [Char.ofNat 0x0409]),
  (Char.ofNat 0x045A, [Char.ofNat 0x040A]), (Char.ofNat 0x045B, [Char.ofNat 0x040B]),
  (Char.ofNat 0x045C, [Char.ofNat 0x040C]), (Char.ofNat 0x045D, [Char.ofNat 0x040D]),
  (Char.ofNat 0x045E, [Char.ofNat 0x040E]), (Char.ofNat 0x045F, [Char.ofNat 0x040F]),
  (Char.ofNat 0x0461, [Char.ofNat 0x0460]), (Char.ofNat 0x0463, [Char.ofNat 0x0462]),
  (Char.ofNat 0x0465, [Char.ofNat 0x0464]), (Char.ofNat 0x0467, [Char.ofNat 0x0466]),
  (Char.ofNat 0x0469, [Char.ofNat 0x0468]), (Char.ofNat 0x046B, [Char.ofNat 0x046A]),
  (Char.ofNat 0x046D, [Char.ofNat 0x046C]), (Char.ofNat 0x046F, [Char.ofNat 0x046E]),
  (Char.ofNat 0x0471, [Char.ofNat 0x0470]), (Char.ofNat 0x0473, [Char.ofNat 0x0472]),
  (Char.ofNat 0x0475, [Char.ofNat 0x0474]), (Char.ofNat 0x0477, [Char.ofNat 0x0476]),
  (Char.ofNat 0x0479, [Char.ofNat 0x0478]), (Char.ofNat 0x047B, [Char.ofNat 0x047A]),
  (Char.ofNat 0x047D, [Char.ofNat 0x047C]), (Char.ofNat 0x047F, [Char.ofNat 0x047E]),
  (Char.ofNat 0x0481, [Char.ofNat 0x0480]), (Char.ofNat 0x048B, [Char.ofNat 0x048A]),
  (Char.ofNat 0x048D, [Char.ofNat 0x048C]), (Char.ofNat 0x048F, [Char.ofNat 0x048E]),
  (Char.ofNat 0x0491, [Char.ofNat 0x0490]), (Char.ofNat 0x0493, [Char.ofNat 0x0492]),
  (Char.ofNat 0x0495, [Char.ofNat 0x0494]), (Char.ofNat 0x0497, [Char.ofNat 0x0496]),
  (Char.ofNat 0x0499, [Char.ofNat 0x0498]), (Char.ofNat 0x049B, [Char.ofNat 0x049A]),
  (Char.ofNat 0x049D, [Char.ofNat 0x049C]), (Char.ofNat 0x049F, [Char.ofNat 0x049E]),
  (Char.ofNat 0x04A1, [Char.ofNat 0x04A0]), (Char.ofNat 0x04A3, [Char.ofNat 0x04A2]),
  (Char.ofNat 0x04A5, [Char.ofNat 0x04A4]), (Char.ofNat 0x04A7, [Char.ofNat 0x04A6]),
  (Char.ofNat 0x04A9, [Char.ofNat 0x04A8]), (Char.ofNat 0x04AB, [Char.ofNat 0x04AA]),
  (Char.ofNat 0x04AD, [Char.ofNat 0x04AC]), (Char.ofNat 0x04AF, [Char.ofNat 0x04AE]),
  (Char.ofNat 0x04B1, [Char.ofNat 0x04B0]), (Char.ofNat 0x04B3, [Char.ofNat 0x04B2]),
  (Char.ofNat 0x04B5, [Char.ofNat 0x04B4]), (Char.ofNat 0x04B7, [Char.ofNat 0x04B6]),
  (Char.ofNat 0x04B9, [Char.ofNat 0x04B8]), (Char.ofNat 0x04BB, [Char.ofNat 0x04BA]),
  (Char.ofNat 0x04BD, [Char.ofNat 0x04BC]), (Char.ofNat 0x04BF, [Char.ofNat 0x04BE]),
  (Char.ofNat 0x04C2, [Char.ofNat 0x04C1]), (Char.ofNat 0x04C4, [Char.ofNat 0x04C3]),
  (Char.ofNat 0x04C6, [Char.ofNat 0x04C5]), (Char.ofNat 0x04C8, [Char.ofNat 0x04C7]),
  (Char.ofNat 0x04CA, [Char.ofNat 0x04C9]), (Char.ofNat 0x04CC, [Char.ofNat 0x04CB]),
  (Char.ofNat 0x04CE, [Char.ofNat 0x04CD]), (Char.ofNat 0x04CF, [Char.ofNat 0x04C0]),
  (Char.ofNat 0x04D1, [Char.ofNat 0x04D0]), (Char.ofNat 0x04D3, [Char.ofNat 0x04D2]),
  (Char.ofNat 0x04D5, [Char.ofNat 0x04D4]), (Char.ofNat 0x04D7, [Char.ofNat 0x04D6]),
  (Char.ofNat 0x04D9, [Char.ofNat 0x04D8]), (Char.ofNat 0x04DB, [Char.ofNat 0x04DA]),
  (Char.ofNat 0x04DD, [Char.ofNat 0x04DC]), (Char.ofNat 0x04DF, [Char.ofNat 0x04DE]),
  (Char.ofNat 0x04E1, [Char.ofNat 0x04E0]), (Char.ofNat 0x04E3, [Char.ofNat 0x04E2]),
  (Char.ofNat 0x04E5, [Char.ofNat 0x04E4]), (Char.ofNat 0x04E7, [Char.ofNat 0x04E6]),
  (Char.ofNat 0x04E9, [Char.ofNat 0x04E8]), (Char.ofNat 0x04EB, [Char.ofNat 0x04EA]),
  (Char.ofNat 0x04ED, [Char.ofNat 0x04EC]), (Char.ofNat 0x04EF, [Char.ofNat 0x04EE]),
  (Char.ofNat 0x04F1, [Char.ofNat 0x04F0]), (Char.ofNat 0x04F3, [Char.ofNat 0x04F2]),
  (Char.ofNat 0x04F5, [Char.ofNat 0x04F4]), (Char.ofNat 0x04F7, [Char.ofNat 0x04F6]),
  (Char.ofNat 0x04F9, [Char.ofNat 0x04F8]), (Char.ofNat 0x04FB, [Char.ofNat 0x04FA]),
  (Char.ofNat 0x04FD, [Char.ofNat 0x04FC]), (Char.ofNat 0x04FF, [Char.ofNat 0x04FE]),
  (Char.ofNat 0x0501, [Char.ofNat 0x0500]), (Char.ofNat 0x0503, [Char.ofNat 0x0502]),
  (Char.ofNat 0x0505, [Char.ofNat 0x0504]), (Char.ofNat 0x0507, [Char.ofNat 0x0506]),
  (Char.ofNat 0x0509, [Char.ofNat 0x0508]), (Char.ofNat 0x050B, [Char.ofNat 0x050A]),
  (Char.ofNat 0x050D, [Char.ofNat 0x050C]), (Char.ofNat 0x050F, [Char.ofNat 0x050E]),
  (Char.ofNat 0x0511, [Char.ofNat 0x0510]), (Char.ofNat 0x0513, [Char.ofNat 0x0512]),
  (Char.ofNat 0x0515, [Char.ofNat 0x0514]), (Char.ofNat 0x0517, [Char.ofNat 0x0516]),
  (Char.ofNat 0x0519, [Char.ofNat 0x0518]), (Char.ofNat 0x051B, [Char.ofNat 0x051A]),
  (Char.ofNat 0x051D, [Char.ofNat 0x051C]), (Char.ofNat 0x051F, [Char.ofNat 0x051E]),
  (Char.ofNat 0x0521, [Char.ofNat 0x0520]), (Char.ofNat 0x0523, [Char.ofNat 0x0522]),
  (Char.ofNat 0x0525, [Char.ofNat 0x0524]), (Char.ofNat 0x0527, [Char.ofNat 0x0526]),
  (Char.ofNat 0x0529, [Char.ofNat 0x0528]), (Char.ofNat 0x052B, [Char.ofNat 0x052A]),
  (Char.ofNat 0x052D, [Char.ofNat 0x052C]), (Char.ofNat 0x052F, [Char.ofNat 0x052E]),
  (Char.ofNat 0x0561, [Char.ofNat 0x0531]), (Char.ofNat 0x0562, [Char.ofNat 0x0532]),
  (Char.ofNat 0x0563, [Char.ofNat 0x0533]), (Char.ofNat 0x0564, [Char.ofNat 0x0534]),
  (Char.ofNat 0x0565, [Char.ofNat 0x0535]), (Char.ofNat 0x0566, [Char.ofNat 0x0536]),
  (Char.ofNat 0x0567, [Char.ofNat 0x0537]), (Char.ofNat 0x0568, [Char.ofNat 0x0538]),
  (Char.ofNat 0x0569, [Char.ofNat 0x0539]), (Char.ofNat 0x056A, [Char.ofNat 0x053A]),
  (Char.ofNat 0x056B, [Char.ofNat 0x053B]), (Char.ofNat 0x056C, [Char.ofNat 0x053C]),
  (Char.ofNat 0x056D, [Char.ofNat 0x053D]), (Char.ofNat 0x056E, [Char.ofNat 0x053E]),
  (Char.ofNat 0x056F, [Char.ofNat 0x053F]), (Char.ofNat 0x0570, [Char.ofNat 0x0540]),
  (Char.ofNat 0x0571, [Char.ofNat 0x0541]), (Char.ofNat 0x0572, [Char.ofNat 0x0542]),
  (Char.ofNat 0x0573, [Char.ofNat 0x0543]), (Char.ofNat 0x0574, [Char.ofNat 0x0544]),
  (Char.ofNat 0x0575, [Char.ofNat 0x0545]), (Char.ofNat 0x0576, [Char.ofNat 0x0546]),
  (Char.ofNat 0x0577, [Char.ofNat 0x0547]), (Char.ofNat 0x0578, [Char.ofNat 0x0548]),
  (Char.ofNat 0x0579, [Char.ofNat 0x0549]), (Char.ofNat 0x057A, [Char.ofNat 0x054A]),
  (Char.ofNat 0x057B, [Char.ofNat 0x054B]), (Char.ofNat 0x057C, [Char.ofNat 0x054C]),
  (Char.ofNat 0x057D, [Char.ofNat 0x054D]), (Char.ofNat 0x057E, [Char.ofNat 0x054E]),
  (Char.ofNat 0x057F, [Char.ofNat 0x054F]), (Char.ofNat 0x0580, [Char.ofNat 0x0550]),
  (Char.ofNat 0x0581, [Char.ofNat 0x0551]), (Char.ofNat 0x0582, [Char.ofNat 0x0552]),
  (Char.ofNat 0x0583, [Char.ofNat 0x0553]), (Char.ofNat 0x0584, [Char.ofNat 0x0554]),
  (Char.ofNat 0x0585, [Char.ofNat 0x0555]), (Char.ofNat 0x0586, [Char.ofNat 0x0556]),
  (Char.ofNat 0x0587, [Char.ofNat 0x0535, Char.ofNat 0x0552]), (Char.ofNat 0x10D0, [Char.ofNat 0x1C90]),
  (Char.ofNat 0x10D1, [Char.ofNat 0x1C91]), (Char.ofNat 0x10D2, [Char.ofNat 0x1C92]),
  (Char.ofNat 0x10D3, [Char.ofNat 0x1C93]), (Char.ofNat 0x10D4, [Char.ofNat 0x1C94]),
  (Char.ofNat 0x10D5, [Char.ofNat 0x1C95]), (Char.ofNat 0x10D6, [Char.ofNat 0x1C96]),
  (Char.ofNat 0x10D7, [Char.ofNat 0x1C97]), (Char.ofNat 0x10D8, [Char.ofNat 0x1C98]),
  (Char.ofNat 0x10D9, [Char.ofNat 0x1C99]), (Char.ofNat 0x10DA, [Char.ofNat 0x1C9A]),
  (Char.ofNat 0x10DB, [Char.ofNat 0x1C9B]), (Char.ofNat 0x10DC, [Char.ofNat 0x1C9C]),
  (Char.ofNat 0x10DD, [Char.ofNat 0x1C9D]), (Char.ofNat 0x10DE, [Char.ofNat 0x1C9E]),
  (Char.ofNat 0x10DF, [Char.ofNat 0x1C9F]), (Char.ofNat 0x10E0, [Char.ofNat 0x1CA0]),
  (Char.ofNat 0x10E1, [Char.ofNat 0x1CA1]), (Char.ofNat 0x10E2, [Char.ofNat 0x1CA2]),
  (Char.ofNat 0x10E3, [Char.ofNat 0x1CA3]), (Char.ofNat 0x10E4, [Char.ofNat 0x1CA4]),
  (Char.ofNat 0x10E5, [Char.ofNat 0x1CA5]), (Char.ofNat 0x10E6, [Char.ofNat 0x1CA6]),
  (Char.ofNat 0x10E7, [Char.ofNat 0x1CA7]), (Char.ofNat 0x10E8, [Char.ofNat 0x1CA8]),
  (Char.ofNat 0x10E9, [Char.ofNat 0x1CA9]), (Char.ofNat 0x10EA, [Char.ofNat 0x1CAA]),
  (Char.ofNat 0x10EB, [Char.ofNat 0x1CAB]), (Char.ofNat 0x10EC, [Char.ofNat 0x1CAC]),
  (Char.ofNat 0x10ED, [Char.ofNat 0x1CAD]), (Char.ofNat 0x10EE, [Char.ofNat 0x1CAE]),
  (Char.ofNat 0x10EF, [Char.ofNat 0x1CAF]), (Char.ofNat 0x10F0, [Char.ofNat 0x1CB0]),
  (Char.ofNat 0x10F1, [Char.ofNat 0x1CB1]), (Char.ofNat 0x10F2, [Char.ofNat 0x1CB2]),
  (Char.ofNat 0x10F3, [Char.ofNat 0x1CB3]), (Char.ofNat 0x10F4, [Char.ofNat 0x1CB4]),
  (Char.ofNat 0x10F5, [Char.ofNat 0x1CB5]), (Char.ofNat 0x10F6, [Char.ofNat 0x1CB6]),
  (Char.ofNat 0x10F7, [Char.ofNat 0x1CB7]), (Char.ofNat 0x10F8, [Char.ofNat 0x1CB8]),
  (Char.ofNat 0x10F9, [Char.ofNat 0x1CB9]), (Char.ofNat 0x10FA, [Char.ofNat 0x1CBA]),
  (Char.ofNat 0x10FD, [Char.ofNat 0x1CBD]), (Char.ofNat 0x10FE, [Char.ofNat 0x1CBE]),
  (Char.ofNat 0x10FF, [Char.ofNat 0x1CBF]), (Char.ofNat 0x13F8, [Char.ofNat 0x13F0]),
  (Char.ofNat 0x13F9, [Char.ofNat 0x13F1]), (Char.ofNat 0x13FA, [Char.ofNat 0x13F2]),
  (Char.ofNat 0x13FB, [Char.ofNat 0x13F3]), (Char.ofNat 0x13FC, [Char.ofNat 0x13F4]),
  (Char.ofNat 0x13FD, [Char.ofNat 0x13F5]), (Char.ofNat 0x1C80, [Char.ofNat 0x0412]),
  (Char.ofNat 0x1C81, [Char.ofNat 0x0414]), (Char.ofNat 0x1C82, [Char.ofNat 0x041E]),
  (Char.ofNat 0x1C83, [Char.ofNat 0x0421]), (Char.ofNat 0x1C84, [Char.ofNat 0x0422]),
  (Char.ofNat 0x1C85, [Char.ofNat 0x0422]), (Char.ofNat 0x1C86, [Char.ofNat 0x042A]),
  (Char.ofNat 0x1C87, [Char.ofNat 0x0462]), (Char.ofNat 0x1C88, [Char.ofNat 0xA64A]),
  (Char.ofNat 0x1D79, [Char.ofNat 0xA77D]), (Char.ofNat 0x1D7D, [Char.ofNat 0x2C63]),
  (Char.ofNat 0x1D8E, [Char.ofNat 0xA7C6]), (Char.ofNat 0x1E01, [Char.ofNat 0x1E00]),
  (Char.ofNat 0x1E03, [Char.ofNat 0x1E02]), (Char.ofNat 0x1E05, [Char.ofNat 0x1E04]),
  (Char.ofNat 0x1E07, [Char.ofNat 0x1E06]), (Char.ofNat 0x1E09, [Char.ofNat 0x1E08]),
  (Char.ofNat 0x1E0B, [Char.ofNat 0x1E0A]), (Char.ofNat 0x1E0D, [Char.ofNat 0x1E0C]),
  (Char.ofNat 0x1E0F, [Char.ofNat 0x1E0E]), (Char.ofNat 0x1E11, [Char.ofNat 0x1E10]),
  (Char.ofNat 0x1E13, [Char.ofNat 0x1E12]), (Char.ofNat 0x1E15, [Char.ofNat 0x1E14]),
  (Char.ofNat 0x1E17, [Char.ofNat 0x1E16]), (Char.ofNat 0x1E19, [Char.ofNat 0x1E18]),
  (Char.ofNat 0x1E1B, [Char.ofNat 0x1E1A]), (Char.ofNat 0x1E1D, [Char.ofNat 0x1E1C]),
  (Char.ofNat 0x1E1F, [Char.ofNat 0x1E1E]), (Char.ofNat 0x1E21, [Char.ofNat 0x1E20]),
  (Char.ofNat 0x1E23, [Char.ofNat 0x1E22]), (Char.ofNat 0x1E25, [Char.ofNat 0x1E24]),
  (Char.ofNat 0x1E27, [Char.ofNat 0x1E26]), (Char.ofNat 0x1E29, [Char.ofNat 0x1E28]),
  (Char.ofNat 0x1E2B, [Char.ofNat 0x1E2A]), (Char.ofNat 0x1E2D, [Char.ofNat 0x1E2C]),
  (Char.ofNat 0x1E2F, [Char.ofNat 0x1E2E]), (Char.ofNat 0x1E31, [Char.ofNat 0x1E30]),
  (Char.ofNat 0x1E33, [Char.ofNat 0x1E32]), (Char.ofNat 0x1E35, [Char.ofNat 0x1E34]),
  (Char.ofNat 0x1E37, [Char.ofNat 0x1E36]), (Char.ofNat 0x1E39, [Char.ofNat 0x1E38]),
  (Char.ofNat 0x1E3B, [Char.ofNat 0x1E3A]), (Char.ofNat 0x1E3D, [Char.ofNat 0x1E3C]),
  (Char.ofNat 0x1E3F, [Char.ofNat 0x1E3E]), (Char.ofNat 0x1E41, [Char.ofNat 0x1E40]),
  (Char.ofNat 0x1E43, [Char.ofNat 0x1E42]), (Char.ofNat 0x1E45, [Char.ofNat 0x1E44]),
  (Char.ofNat 0x1E47, [Char.ofNat 0x1E46]), (Char.ofNat 0x1E49, [Char.ofNat 0x1E48]),
  (Char.ofNat 0x1E4B, [Char.ofNat 0x1E4A]), (Char.ofNat 0x1E4D, [Char.ofNat 0x1E4C]),
  (Char.ofNat 0x1E4F, [Char.ofNat 0x1E4E]), (Char.ofNat 0x1E51, [Char.ofNat 0x1E50]),
  (Char.ofNat 0x1E53, [Char.ofNat 0x1E52]), (Char.ofNat 0x1E55, [Char.ofNat 0x1E54]),
  (Char.ofNat 0x1E57, [Char.ofNat 0x1E56]), (Char.ofNat 0x1E59, [Char.ofNat 0x1E58]),
  (Char.ofNat 0x1E5B, [Char.ofNat 0x1E5A]), (Char.ofNat 0x1E5D, [Char.ofNat 0x1E5C]),
  (Char.ofNat 0x1E5F, [Char.ofNat 0x1E5E]), (Char.ofNat 0x1E61, [Char.ofNat 0x1E60]),
  (Char.ofNat 0x1E63, [Char.ofNat 0x1E62]), (Char.ofNat 0x1E65, [Char.ofNat 0x1E64]),
  (Char.ofNat 0x1E67, [Char.ofNat 0x1E66]), (Char.ofNat 0x1E69, [Char.ofNat 0x1E68]),
  (Char.ofNat 0x1E6B, [Char.ofNat 0x1E6A]), (Char.ofNat 0x1E6D, [Char.ofNat 0x1E6C]),
  (Char.ofNat 0x1E6F, [Char.ofNat 0x1E6E]), (Char.ofNat 0x1E71, [Char.ofNat 0x1E70]),
  (Char.ofNat 0x1E73, [Char.ofNat 0x1E72]), (Char.ofNat 0x1E75, [Char.ofNat 0x1E74]),
  (Char.ofNat 0x1E77, [Char.ofNat 0x1E76]), (Char.ofNat 0x1E79, [Char.ofNat 0x1E78]),
  (Char.ofNat 0x1E7B, [Char.ofNat 0x1E7A]), (Char.ofNat 0x1E7D, [Char.ofNat 0x1E7C]),
  (Char.ofNat 0x1E7F, [Char.ofNat 0x1E7E]), (Char.ofNat 0x1E81, [Char.ofNat 0x1E80]),
  (Char.ofNat 0x1E83, [Char.ofNat 0x1E82]), (Char.ofNat 0x1E85, [Char.ofNat 0x1E84]),
  (Char.ofNat 0x1E87, [Char.ofNat 0x1E86]), (Char.ofNat 0x1E89, [Char.ofNat 0x1E88]),
  (Char.ofNat 0x1E8B, [Char.ofNat 0x1E8A]), (Char.ofNat 0x1E8D, [Char.ofNat 0x1E8C]),
  (Char.ofNat 0x1E8F, [Char.ofNat 0x1E8E]), (Char.ofNat 0x1E91, [Char.ofNat 0x1E90]),
  (Char.ofNat 0x1E93, [Char.ofNat 0x1E92]), (Char.ofNat 0x1E95, [Char.ofNat 0x1E94]),
  (Char.ofNat 0x1E96, [Char.ofNat 0x0048, Char.ofNat 0x0331]), (Char.ofNat 0x1E97, [Char.ofNat 0x0054, Char.ofNat 0x0308]),
  (Char.ofNat 0x1E98, [Char.ofNat 0x0057, Char.ofNat 0x030A]), (Char.ofNat 0x1E99, [Char.ofNat 0x0059, Char.ofNat 0x030A]),
  (Char.ofNat 0x1E9A, [Char.ofNat 0x0041, Char.ofNat 0x02BE]), (Char.ofNat 0x1E9B, [Char.ofNat 0x1E60]),
  (Char.ofNat 0x1EA1, [Char.ofNat 0x1EA0]), (Char.ofNat 0x1EA3, [Char.ofNat 0x1EA2]),
  (Char.ofNat 0x1EA5, [Char.ofNat 0x1EA4]), (Char.ofNat 0x1EA7, [Char.ofNat 0x1EA6]),
  (Char.ofNat 0x1EA9, [Char.ofNat 0x1EA8]), (Char.ofNat 0x1EAB, [Char.ofNat 0x1EAA]),
  (Char.ofNat 0x1EAD, [Char.ofNat 0x1EAC]), (Char.ofNat 0x1EAF, [Char.ofNat 0x1EAE]),
  (Char.ofNat 0x1EB1, [Char.ofNat 0x1EB0]), (Char.ofNat 0x1EB3, [Char.ofNat 0x1EB2]),
  (Char.ofNat 0x1EB5, [Char.ofNat 0x1EB4]), (Char.ofNat 0x1EB7, [Char.ofNat 0x1EB6]),
  (Char.ofNat 0x1EB9, [Char.ofNat 0x1EB8]), (Char.ofNat 0x1EBB, [Char.ofNat 0x1EBA]),
  (Char.ofNat 0x1EBD, [Char.ofNat 0x1EBC]), (Char.ofNat 0x1EBF, [Char.ofNat 0x1EBE]),
  (Char.ofNat 0x1EC1, [Char.ofNat 0x1EC0]), (Char.ofNat 0x1EC3, [Char.ofNat 0x1EC2]),
  (Char.ofNat 0x1EC5, [Char.ofNat 0x1EC4]), (Char.ofNat 0x1EC7, [Char.ofNat 0x1EC6]),
  (Char.ofNat 0x1EC9, [Char.ofNat 0x1EC8]), (Char.ofNat 0x1ECB, [Char.ofNat 0x1ECA]),
  (Char.ofNat 0x1ECD, [Char.ofNat 0x1ECC]), (Char.ofNat 0x1ECF, [Char.ofNat 0x1ECE]),
  (Char.ofNat 0x1ED1, [Char.ofNat 0x1ED0]), (Char.ofNat 0x1ED3, [Char.ofNat 0x1ED2]),
  (Char.ofNat 0x1ED5, [Char.ofNat 0x1ED4]), (Char.ofNat 0x1ED7, [Char.ofNat 0x1ED6]),
  (Char.ofNat 0x1ED9, [Char.ofNat 0x1ED8]), (Char.ofNat 0x1EDB, [Char.ofNat 0x1EDA]),
  (Char.ofNat 0x1EDD, [Char.ofNat 0x1EDC]), (Char.ofNat 0x1EDF, [Char.ofNat 0x1EDE]),
  (Char.ofNat 0x1EE1, [Char.ofNat 0x1EE0]), (Char.ofNat 0x1EE3, [Char.ofNat 0x1EE2]),
  (Char.ofNat 0x1EE5, [Char.ofNat 0x1EE4]), (Char.ofNat 0x1EE7, [Char.ofNat 0x1EE6]),
  (Char.ofNat 0x1EE9, [Char.ofNat 0x1EE8]), (Char.ofNat 0x1EEB, [Char.ofNat 0x1EEA]),
  (Char.ofNat 0x1EED, [Char.ofNat 0x1EEC]), (Char.ofNat 0x1EEF, [Char.ofNat 0x1EEE]),
  (Char.ofNat 0x1EF1, [Char.ofNat 0x1EF0]), (Char.ofNat 0x1EF3, [Char.ofNat 0x1EF2]),
  (Char.ofNat 0x1EF5, [Char.ofNat 0x1EF4]), (Char.ofNat 0x1EF7, [Char.ofNat 0x1EF6]),
  (Char.ofNat 0x1EF9, [Char.ofNat 0x1EF8]), (Char.ofNat 0x1EFB, [Char.ofNat 0x1EFA]),
  (Char.ofNat 0x1EFD, [Char.ofNat 0x1EFC]), (Char.ofNat 0x1EFF, [Char.ofNat 0x1EFE]),
  (Char.ofNat 0x1F00, [Char.ofNat 0x1F08]), (Char.ofNat 0x1F01, [Char.ofNat 0x1F09]),
  (Char.ofNat 0x1F02, [Char.ofNat 0x1F0A]), (Char.ofNat 0x1F03, [Char.ofNat 0x1F0B]),
  (Char.ofNat 0x1F04, [Char.ofNat 0x1F0C]), (Char.ofNat 0x1F05, [Char.ofNat 0x1F0D]),
  (Char.ofNat 0x1F06, [Char.ofNat 0x1F0E]), (Char.ofNat 0x1F07, [Char.ofNat 0x1F0F]),
  (Char.ofNat 0x1F10, [Char.ofNat 0x1F18]), (Char.ofNat 0x1F11, [Char.ofNat 0x1F19]),
  (Char.ofNat 0x1F12, [Char.ofNat 0x1F1A]), (Char.ofNat 0x1F13, [Char.ofNat 0x1F1B]),
  (Char.ofNat 0x1F14, [Char.ofNat 0x1F1C]), (Char.ofNat 0x1F15, [Char.ofNat 0x1F1D]),
  (Char.ofNat 0x1F20, [Char.ofNat 0x1F28]), (Char.ofNat 0x1F21, [Char.ofNat 0x1F29]),
  (Char.ofNat 0x1F22, [Char.ofNat 0x1F2A]), (Char.ofNat 0x1F23, [Char.ofNat 0x1F2B]),
  (Char.ofNat 0x1F24, [Char.ofNat 0x1F2C]), (Char.ofNat 0x1F25, [Char.ofNat 0x1F2D]),
  (Char.ofNat 0x1F26, [Char.ofNat 0x1F2E]), (Char.ofNat 0x1F27, [Char.ofNat 0x1F2F]),
  (Char.ofNat 0x1F30, [Char.ofNat 0x1F38]), (Char.ofNat 0x1F31, [Char.ofNat 0x1F39]),
  (Char.ofNat 0x1F32, [Char.ofNat 0x1F3A]), (Char.ofNat 0x1F33, [Char.ofNat 0x1F3B]),
  (Char.ofNat 0x1F34, [Char.ofNat 0x1F3C]), (Char.ofNat 0x1F35, [Char.ofNat 0x1F3D]),
  (Char.ofNat 0x1F36, [Char.ofNat 0x1F3E]), (Char.ofNat 0x1F37, [Char.ofNat 0x1F3F]),
  (Char.ofNat 0x1F40, [Char.ofNat 0x1F48]), (Char.ofNat 0x1F41, [Char.ofNat 0x1F49]),
  (Char.ofNat 0x1F42, [Char.ofNat 0x1F4A]), (Char.ofNat 0x1F43, [Char.ofNat 0x1F4B]),
  (Char.ofNat 0x1F44, [Char.ofNat 0x1F4C]), (Char.ofNat 0x1F45, [Char.ofNat 0x1F4D]),
  (Char.ofNat 0x1F50, [Char.ofNat 0x03A5, Char.ofNat 0x0313]), (Char.ofNat 0x1F51, [Char.ofNat 0x1F59]),
  (Char.ofNat 0x1F52, [Char.ofNat 0x03A5, Char.ofNat 0x0313, Char.ofNat 0x0300]), (Char.ofNat 0x1F53, [Char.ofNat 0x1F5B]),
  (Char.ofNat 0x1F54, [Char.ofNat 0x03A5, Char.ofNat 0x0313, Char.ofNat 0x0301]), (Char.ofNat 0x1F55, [Char.ofNat 0x1F5D]),
  (Char.ofNat 0x1F56, [Char.ofNat 0x03A5, Char.ofNat 0x0313, Char.ofNat 0x0342]), (Char.ofNat 0x1F57, [Char.ofNat 0x1F5F]),
  (Char.ofNat 0x1F60, [Char.ofNat 0x1F68]), (Char.ofNat 0x1F61, [Char.ofNat 0x1F69]),
  (Char.ofNat 0x1F62, [Char.ofNat 0x1F6A]), (Char.ofNat 0x1F63, [Char.ofNat 0x1F6B]),
  (Char.ofNat 0x1F64, [Char.ofNat 0x1F6C]), (Char.ofNat 0x1F65, [Char.ofNat 0x1F6D]),
  (Char.ofNat 0x1F66, [Char.ofNat 0x1F6E]), (Char.ofNat 0x1F67, [Char.ofNat 0x1F6F]),
  (Char.ofNat 0x1F70, [Char.ofNat 0x1FBA]), (Char.ofNat 0x1F71, [Char.ofNat 0x1FBB]),
  (Char.ofNat 0x1F72, [Char.ofNat 0x1FC8]), (Char.ofNat 0x1F73, [Char.ofNat 0x1FC9]),
  (Char.ofNat 0x1F74, [Char.ofNat 0x1FCA]), (Char.ofNat 0x1F75, [Char.ofNat 0x1FCB]),
  (Char.ofNat 0x1F76, [Char.ofNat 0x1FDA]), (Char.ofNat 0x1F77, [Char.ofNat 0x1FDB]),
  (Char.ofNat 0x1F78, [Char.ofNat 0x1FF8]), (Char.ofNat 0x1F79, [Char.ofNat 0x1FF9]),
  (Char.ofNat 0x1F7A, [Char.ofNat 0x1FEA]), (Char.ofNat 0x1F7B, [Char.ofNat 0x1FEB]),
  (Char.ofNat 0x1F7C, [Char.ofNat 0x1FFA]), (Char.ofNat 0x1F7D, [Char.ofNat 0x1FFB]),
  (Char.ofNat 0x1F80, [Char.ofNat 0x1F08, Char.ofNat 0x0399]), (Char.ofNat 0x1F81, [Char.ofNat 0x1F09, Char.ofNat 0x0399]),
  (Char.ofNat 0x1F82, [Char.ofNat 0x1F0A, Char.ofNat 0x0399]), (Char.ofNat 0x1F83, [Char.ofNat 0x1F0B, Char.ofNat 0x0399]),
  (Char.ofNat 0x1F84, [Char.ofNat 0x1F0C, Char.ofNat 0x0399]), (Char.ofNat 0x1F85, [Char.ofNat 0x1F0D, Char.ofNat 0x0399]),
  (Char.ofNat 0x1F86, [Char.ofNat 0x1F0E, Char.ofNat 0x0399]), (Char.ofNat 0x1F87, [Char.ofNat 0x1F0F, Char.ofNat 0x0399]),
  (Char.ofNat 0x1F88, [Char.ofNat 0x1F08, Char.ofNat 0x0399]), (Char.ofNat 0x1F89, [Char.ofNat 0x1F09, Char.ofNat 0x0399]),
  (Char.ofNat 0x1F8A, [Char.ofNat 0x1F0A, Char.ofNat 0x0399]), (Char.ofNat 0x1F8B, [Char.ofNat 0x1F0B, Char.ofNat 0x0399]),
  (Char.ofNat 0x1F8C, [Char.ofNat 0x1F0C, Char.ofNat 0x0399]), (Char.ofNat 0x1F8D, [Char.ofNat 0x1F0D, Char.ofNat 0x0399]),
  (Char.ofNat 0x1F8E, [Char.ofNat 0x1F0E, Char.ofNat 0x0399]), (Char.ofNat 0x1F8F, [Char.ofNat 0x1F0F, Char.ofNat 0x0399]),
  (Char.ofNat 0x1F90, [Char.ofNat 0x1F28, Char.ofNat 0x0399]), (Char.ofNat 0x1F91, [Char.ofNat 0x1F29, Char.ofNat 0x0399]),
  (Char.ofNat 0x1F92, [Char.ofNat 0x1F2A, Char.ofNat 0x0399]), (Char.ofNat 0x1F93, [Char.ofNat 0x1F2B, Char.ofNat 0x0399]),
  (Char.ofNat 0x1F94, [Char.ofNat 0x1F2C, Char.ofNat 0x0399]), (Char.ofNat 0x1F95, [Char.ofNat 0x1F2D, Char.ofNat 0x0399]),
  (Char.ofNat 0x1F96, [Char.ofNat 0x1F2E, Char.ofNat 0x0399]), (Char.ofNat 0x1F97, [Char.ofNat 0x1F2F, Char.ofNat 0x0399]),
  (Char.ofNat 0x1F98, [Char.ofNat 0x1F28, Char.ofNat 0x0399]), (Char.ofNat 0x1F99, [Char.ofNat 0x1F29, Char.ofNat 0x0399]),
  (Char.ofNat 0x1F9A, [Char.ofNat 0x1F2A, Char.ofNat 0x0399]), (Char.ofNat 0x1F9B, [Char.ofNat 0x1F2B, Char.ofNat 0x0399]),
  (Char.ofNat 0x1F9C, [Char.ofNat 0x1F2C, Char.ofNat 0x0399]), (Char.ofNat 0x1F9D, [Char.ofNat 0x1F2D, Char.ofNat 0x0399]),
  (Char.ofNat 0x1F9E, [Char.ofNat 0x1F2E, Char.ofNat 0x0399]), (Char.ofNat 0x1F9F, [Char.ofNat 0x1F2F, Char.ofNat 0x0399]),
  (Char.ofNat 0x1FA0, [Char.ofNat 0x1F68, Char.ofNat 0x0399]), (Char.ofNat 0x1FA1, [Char.ofNat 0x1F69, Char.ofNat 0x0399]),
  (Char.ofNat 0x1FA2, [Char.ofNat 0x1F6A, Char.ofNat 0x0399]), (Char.ofNat 0x1FA3, [Char.ofNat 0x1F6B, Char.ofNat 0x0399]),
  (Char.ofNat 0x1FA4, [Char.ofNat 0x1F6C, Char.ofNat 0x0399]), (Char.ofNat 0x1FA5, [Char.ofNat 0x1F6D, Char.ofNat 0x0399]),
  (Char.ofNat 0x1FA6, [Char.ofNat 0x1F6E, Char.ofNat 0x0399]), (Char.ofNat 0x1FA7, [Char.ofNat 0x1F6F, Char.ofNat 0x0399]),
  (Char.ofNat 0x1FA8, [Char.ofNat 0x1F68, Char.ofNat 0x0399]), (Char.ofNat 0x1FA9, [Char.ofNat 0x1F69, Char.ofNat 0x0399]),
  (Char.ofNat 0x1FAA, [Char.ofNat 0x1F6A, Char.ofNat 0x0399]), (Char.ofNat 0x1FAB, [Char.ofNat 0x1F6B, Char.ofNat 0x0399]),
  (Char.ofNat 0x1FAC, [Char.ofNat 0x1F6C, Char.ofNat 0x0399]), (Char.ofNat 0x1FAD, [Char.ofNat 0x1F6D, Char.ofNat 0x0399]),
  (Char.ofNat 0x1FAE, [Char.ofNat 0x1F6E, Char.ofNat 0x0399]), (Char.ofNat 0x1FAF, [Char.ofNat 0x1F6F, Char.ofNat 0x0399]),
  (Char.ofNat 0x1FB0, [Char.ofNat 0x1FB8]), (Char.ofNat 0x1FB1, [Char.ofNat 0x1FB9]),
  (Char.ofNat 0x1FB2, [Char.ofNat 0x1FBA, Char.ofNat 0x0399]), (Char.ofNat 0x1FB3, [Char.ofNat 0x0391, Char.ofNat 0x0399]),
  (Char.ofNat 0x1FB4, [Char.ofNat 0x0386, Char.ofNat 0x0399]), (Char.ofNat 0x1FB6, [Char.ofNat 0x0391, Char.ofNat 0x0342]),
  (Char.ofNat 0x1FB7, [Char.ofNat 0x0391, Char.ofNat 0x0342, Char.ofNat 0x0399]), (Char.ofNat 0x1FBC, [Char.ofNat 0x0391, Char.ofNat 0x0399]),
  (Char.ofNat 0x1FBE, [Char.ofNat 0x0399]), (Char.ofNat 0x1FC2, [Char.ofNat 0x1FCA, Char.ofNat 0x0399]),
  (Char.ofNat 0x1FC3, [Char.ofNat 0x0397, Char.ofNat 0x0399]), (Char.ofNat 0x1FC4, [Char.ofNat 0x0389, Char.ofNat 0x0399]),
  (Char.ofNat 0x1FC6, [Char.ofNat 0x0397, Char.ofNat 0x0342]), (Char.ofNat 0x1FC7, [Char.ofNat 0x0397, Char.ofNat 0x0342, Char.ofNat 0x0399]),
  (Char.ofNat 0x1FCC, [Char.ofNat 0x0397, Char.ofNat 0x0399]), (Char.ofNat 0x1FD0, [Char.ofNat 0x1FD8]),
  (Char.ofNat 0x1FD1, [Char.ofNat 0x1FD9]), (Char.ofNat 0x1FD2, [Char.ofNat 0x0399, Char.ofNat 0x0308, Char.ofNat 0x0300]),
  (Char.ofNat 0x1FD3, [Char.ofNat 0x0399, Char.ofNat 0x0308, Char.ofNat 0x0301]), (Char.ofNat 0x1FD6, [Char.ofNat 0x0399, Char.ofNat 0x0342]),
  (Char.ofNat 0x1FD7, [Char.ofNat 0x0399, Char.ofNat 0x0308, Char.ofNat 0x0342]), (Char.ofNat 0x1FE0, [Char.ofNat 0x1FE8]),
  (Char.ofNat 0x1FE1, [Char.ofNat 0x1FE9]), (Char.ofNat 0x1FE2, [Char.ofNat 0x03A5, Char.ofNat 0x0308, Char.ofNat 0x0300]),
  (Char.ofNat 0x1FE3, [Char.ofNat 0x03A5, Char.ofNat 0x0308, Char.ofNat 0x0301]), (Char.ofNat 0x1FE4, [Char.ofNat 0x03A1, Char.ofNat 0x0313]),
  (Char.ofNat 0x1FE5, [Char.ofNat 0x1FEC]), (Char.ofNat 0x1FE6, [Char.ofNat 0x03A5, Char.ofNat 0x0342]),
  (Char.ofNat 0x1FE7, [Char.ofNat 0x03A5, Char.ofNat 0x0308, Char.ofNat 0x0342]), (Char.ofNat 0x1FF2, [Char.ofNat 0x1FFA, Char.ofNat 0x0399]),
  (Char.ofNat 0x1FF3, [Char.ofNat 0x03A9, Char.ofNat 0x0399]), (Char.ofNat 0x1FF4, [Char.ofNat 0x038F, Char.ofNat 0x0399]),
  (Char.ofNat 0x1FF6, [Char.ofNat 0x03A9, Char.ofNat 0x0342]), (Char.ofNat 0x1FF7, [Char.ofNat 0x03A9, Char.ofNat 0x0342, Char.ofNat 0x0399]),
  (Char.ofNat 0x1FFC, [Char.ofNat 0x03A9, Char.ofNat 0x0399]), (Char.ofNat 0x214E, [Char.ofNat 0x2132]),
  (Char.ofNat 0x2170, [Char.ofNat 0x2160]), (Char.ofNat 0x2171, [Char.ofNat 0x2161]),
  (Char.ofNat 0x2172, [Char.ofNat 0x2162]), (Char.ofNat 0x2173, [Char.ofNat 0x2163]),
  (Char.ofNat 0x2174, [Char.ofNat 0x2164]), (Char.ofNat 0x2175, [Char.ofNat 0x2165]),
  (Char.ofNat 0x2176, [Char.ofNat 0x2166]), (Char.ofNat 0x2177, [Char.ofNat 0x2167]),
  (Char.ofNat 0x2178, [Char.ofNat 0x2168]), (Char.ofNat 0x2179, [Char.ofNat 0x2169]),
  (Char.ofNat 0x217A, [Char.ofNat 0x216A]), (Char.ofNat 0x217B, [Char.ofNat 0x216B]),
  (Char.ofNat 0x217C, [Char.ofNat 0x216C]), (Char.ofNat 0x217D, [Char.ofNat 0x216D]),
  (Char.ofNat 0x217E, [Char.ofNat 0x216E]), (Char.ofNat 0x217F, [Char.ofNat 0x216F]),
  (Char.ofNat 0x2184, [Char.ofNat 0x2183]), (Char.ofNat 0x24D0, [Char.ofNat 0x24B6]),
  (Char.ofNat 0x24D1, [Char.ofNat 0x24B7]), (Char.ofNat 0x24D2, [Char.ofNat 0x24B8]),
  (Char.ofNat 0x24D3, [Char.ofNat 0x24B9]), (Char.ofNat 0x24D4, [Char.ofNat 0x24BA]),
  (Char.ofNat 0x24D5, [Char.ofNat 0x24BB]), (Char.ofNat 0x24D6, [Char.ofNat 0x24BC]),
  (Char.ofNat 0x24D7, [Char.ofNat 0x24BD]), (Char.ofNat 0x24D8, [Char.ofNat 0x24BE]),
  (Char.ofNat 0x24D9, [Char.ofNat 0x24BF]), (Char.ofNat 0x24DA, [Char.ofNat 0x24C0]),
  (Char.ofNat 0x24DB, [Char.ofNat 0x24C1]), (Char.ofNat 0x24DC, [Char.ofNat 0x24C2]),
  (Char.ofNat 0x24DD, [Char.ofNat 0x24C3]), (Char.ofNat 0x24DE, [Char.ofNat 0x24C4]),
  (Char.ofNat 0x24DF, [Char.ofNat 0x24C5]), (Char.ofNat 0x24E0, [Char.ofNat 0x24C6]),
  (Char.ofNat 0x24E1, [Char.ofNat 0x24C7]), (Char.ofNat 0x24E2, [Char.ofNat 0x24C8]),
  (Char.ofNat 0x24E3, [Char.ofNat 0x24C9]), (Char.ofNat 0x24E4, [Char.ofNat 0x24CA]),
  (Char.ofNat 0x24E5, [Char.ofNat 0x24CB]), (Char.ofNat 0x24E6, [Char.ofNat 0x24CC]),
  (Char.ofNat 0x24E7, [Char.ofNat 0x24CD]), (Char.ofNat 0x24E8, [Char.ofNat 0x24CE]),
  (Char.ofNat 0x24E9, [Char.ofNat 0x24CF]), (Char.ofNat 0x2C30, [Char.ofNat 0x2C00]),
  (Char.ofNat 0x2C31, [Char.ofNat 0x2C01]), (Char.ofNat 0x2C32, [Char.ofNat 0x2C02]),
  (Char.ofNat 0x2C33, [Char.ofNat 0x2C03]), (Char.ofNat 0x2C34, [Char.ofNat 0x2C04]),
  (Char.ofNat 0x2C35, [Char.ofNat 0x2C05]), (Char.ofNat 0x2C36, [Char.ofNat 0x2C06]),
  (Char.ofNat 0x2C37, [Char.ofNat 0x2C07]), (Char.ofNat 0x2C38, [Char.ofNat 0x2C08]),
  (Char.ofNat 0x2C39, [Char.ofNat 0x2C09]), (Char.ofNat 0x2C3A, [Char.ofNat 0x2C0A]),
  (Char.ofNat 0x2C3B, [Char.ofNat 0x2C0B]), (Char.ofNat 0x2C3C, [Char.ofNat 0x2C0C]),
  (Char.ofNat 0x2C3D, [Char.ofNat 0x2C0D]), (Char.ofNat 0x2C3E, [Char.ofNat 0x2C0E]),
  (Char.ofNat 0x2C3F, [Char.ofNat 0x2C0F]), (Char.ofNat 0x2C40, [Char.ofNat 0x2C10]),
  (Char.ofNat 0x2C41, [Char.ofNat 0x2C11]), (Char.ofNat 0x2C42, [Char.ofNat 0x2C12]),
  (Char.ofNat 0x2C43, [Char.ofNat 0x2C13]), (Char.ofNat 0x2C44, [Char.ofNat 0x2C14]),
  (Char.ofNat 0x2C45, [Char.ofNat 0x2C15]), (Char.ofNat 0x2C46, [Char.ofNat 0x2C16]),
  (Char.ofNat 0x2C47, [Char.ofNat 0x2C17]), (Char.ofNat 0x2C48, [Char.ofNat 0x2C18]),
  (Char.ofNat 0x2C49, [Char.ofNat 0x2C19]), (Char.ofNat 0x2C4A, [Char.ofNat 0x2C1A]),
  (Char.ofNat 0x2C4B, [Char.ofNat 0x2C1B]), (Char.ofNat 0x2C4C, [Char.ofNat 0x2C1C]),
  (Char.ofNat 0x2C4D, [Char.ofNat 0x2C1D]), (Char.ofNat 0x2C4E, [Char.ofNat 0x2C1E]),
  (Char.ofNat 0x2C4F, [Char.ofNat 0x2C1F]), (Char.ofNat 0x2C50, [Char.ofNat 0x2C20]),
  (Char.ofNat 0x2C51, [Char.ofNat 0x2C21]), (Char.ofNat 0x2C52, [Char.ofNat 0x2C22]),
  (Char.ofNat 0x2C53, [Char.ofNat 0x2C23]), (Char.ofNat 0x2C54, [Char.ofNat 0x2C24]),
  (Char.ofNat 0x2C55, [Char.ofNat 0x2C25]), (Char.ofNat 0x2C56, [Char.ofNat 0x2C26]),
  (Char.ofNat 0x2C57, [Char.ofNat 0x2C27]), (Char.ofNat 0x2C58, [Char.ofNat 0x2C28]),
  (Char.ofNat 0x2C59, [Char.ofNat 0x2C29]), (Char.ofNat 0x2C5A, [Char.ofNat 0x2C2A]),
  (Char.ofNat 0x2C5B, [Char.ofNat 0x2C2B]), (Char.ofNat 0x2C5C, [Char.ofNat 0x2C2C]),
  (Char.ofNat 0x2C5D, [Char.ofNat 0x2C2D]), (Char.ofNat 0x2C5E, [Char.ofNat 0x2C2E]),
  (Char.ofNat 0x2C5F, [Char.ofNat 0x2C2F]), (Char.ofNat 0x2C61, [Char.ofNat 0x2C60]),
  (Char.ofNat 0x2C65, [Char.ofNat 0x023A]), (Char.ofNat 0x2C66, [Char.ofNat 0x023E]),
  (Char.ofNat 0x2C68, [Char.ofNat 0x2C67]), (Char.ofNat 0x2C6A, [Char.ofNat 0x2C69]),
  (Char.ofNat 0x2C6C, [Char.ofNat 0x2C6B]), (Char.ofNat 0x2C73, [Char.ofNat 0x2C72]),
  (Char.ofNat 0x2C76, [Char.ofNat 0x2C75]), (Char.ofNat 0x2C81, [Char.ofNat 0x2C80]),
  (Char.ofNat 0x2C83, [Char.ofNat 0x2C82]), (Char.ofNat 0x2C85, [Char.ofNat 0x2C84]),
  (Char.ofNat 0x2C87, [Char.ofNat 0x2C86]), (Char.ofNat 0x2C89, [Char.ofNat 0x2C88]),
  (Char.ofNat 0x2C8B, [Char.ofNat 0x2C8A]), (Char.ofNat 0x2C8D, [Char.ofNat 0x2C8C]),
  (Char.ofNat 0x2C8F, [Char.ofNat 0x2C8E]), (Char.ofNat 0x2C91, [Char.ofNat 0x2C90]),
  (Char.ofNat 0x2C93, [Char.ofNat 0x2C92]), (Char.ofNat 0x2C95, [Char.ofNat 0x2C94]),
  (Char.ofNat 0x2C97, [Char.ofNat 0x2C96]), (Char.ofNat 0x2C99, [Char.ofNat 0x2C98]),
  (Char.ofNat 0x2C9B, [Char.ofNat 0x2C9A]), (Char.ofNat 0x2C9D, [Char.ofNat 0x2C9C]),
  (Char.ofNat 0x2C9F, [Char.ofNat 0x2C9E]), (Char.ofNat 0x2CA1, [Char.ofNat 0x2CA0]),
  (Char.ofNat 0x2CA3, [Char.ofNat 0x2CA2]), (Char.ofNat 0x2CA5, [Char.ofNat 0x2CA4]),
  (Char.ofNat 0x2CA7, [Char.ofNat 0x2CA6]), (Char.ofNat 0x2CA9, [Char.ofNat 0x2CA8]),
  (Char.ofNat 0x2CAB, [Char.ofNat 0x2CAA]), (Char.ofNat 0x2CAD, [Char.ofNat 0x2CAC]),
  (Char.ofNat 0x2CAF, [Char.ofNat 0x2CAE]), (Char.ofNat 0x2CB1, [Char.ofNat 0x2CB0]),
  (Char.ofNat 0x2CB3, [Char.ofNat 0x2CB2]), (Char.ofNat 0x2CB5, [Char.ofNat 0x2CB4]),
  (Char.ofNat 0x2CB7, [Char.ofNat 0x2CB6]), (Char.ofNat 0x2CB9, [Char.ofNat 0x2CB8]),
  (Char.ofNat 0x2CBB, [Char.ofNat 0x2CBA]), (Char.ofNat 0x2CBD, [Char.ofNat 0x2CBC]),
  (Char.ofNat 0x2CBF, [Char.ofNat 0x2CBE]), (Char.ofNat 0x2CC1, [Char.ofNat 0x2CC0]),
  (Char.ofNat 0x2CC3, [Char.ofNat 0x2CC2]), (Char.ofNat 0x2CC5, [Char.ofNat 0x2CC4]),
  (Char.ofNat 0x2CC7, [Char.ofNat 0x2CC6]), (Char.ofNat 0x2CC9, [Char.ofNat 0x2CC8]),
  (Char.ofNat 0x2CCB, [Char.ofNat 0x2CCA]), (Char.ofNat 0x2CCD, [Char.ofNat 0x2CCC]),
  (Char.ofNat 0x2CCF, [Char.ofNat 0x2CCE]), (Char.ofNat 0x2CD1, [Char.ofNat 0x2CD0]),
  (Char.ofNat 0x2CD3, [Char.ofNat 0x2CD2]), (Char.ofNat 0x2CD5, [Char.ofNat 0x2CD4]),
  (Char.ofNat 0x2CD7, [Char.ofNat 0x2CD6]), (Char.ofNat 0x2CD9, [Char.ofNat 0x2CD8]),
  (Char.ofNat 0x2CDB, [Char.ofNat 0x2CDA]), (Char.ofNat 0x2CDD, [Char.ofNat 0x2CDC]),
  (Char.ofNat 0x2CDF, [Char.ofNat 0x2CDE]), (Char.ofNat 0x2CE1, [Char.ofNat 0x2CE0]),
  (Char.ofNat 0x2CE3, [Char.ofNat 0x2CE2]), (Char.ofNat 0x2CEC, [Char.ofNat 0x2CEB]),
  (Char.ofNat 0x2CEE, [Char.ofNat 0x2CED]), (Char.ofNat 0x2CF3, [Char.ofNat 0x2CF2]),
  (Char.ofNat 0x2D00, [Char.ofNat 0x10A0]), (Char.ofNat 0x2D01, [Char.ofNat 0x10A1]),
  (Char.ofNat 0x2D02, [Char.ofNat 0x10A2]), (Char.ofNat 0x2D03, [Char.ofNat 0x10A3]),
  (Char.ofNat 0x2D04, [Char.ofNat 0x10A4]), (Char.ofNat 0x2D05, [Char.ofNat 0x10A5]),
  (Char.ofNat 0x2D06, [Char.ofNat 0x10A6]), (Char.ofNat 0x2D07, [Char.ofNat 0x10A7]),
  (Char.ofNat 0x2D08, [Char.ofNat 0x10A8]), (Char.ofNat 0x2D09, [Char.ofNat 0x10A9]),
  (Char.ofNat 0x2D0A, [Char.ofNat 0x10AA]), (Char.ofNat 0x2D0B, [Char.ofNat 0x10AB]),
  (Char.ofNat 0x2D0C, [Char.ofNat 0x10AC]), (Char.ofNat 0x2D0D, [Char.ofNat 0x10AD]),
  (Char.ofNat 0x2D0E, [Char.ofNat 0x10AE]), (Char.ofNat 0x2D0F, [Char.ofNat 0x10AF]),
  (Char.ofNat 0x2D10, [Char.ofNat 0x10B0]), (Char.ofNat 0x2D11, [Char.ofNat 0x10B1]),
  (Char.ofNat 0x2D12, [Char.ofNat 0x10B2]), (Char.ofNat 0x2D13, [Char.ofNat 0x10B3]),
  (Char.ofNat 0x2D14, [Char.ofNat 0x10B4]), (Char.ofNat 0x2D15, [Char.ofNat 0x10B5]),
  (Char.ofNat 0x2D16, [Char.ofNat 0x10B6]), (Char.ofNat 0x2D17, [Char.ofNat 0x10B7]),
  (Char.ofNat 0x2D18, [Char.ofNat 0x10B8]), (Char.ofNat 0x2D19, [Char.ofNat 0x10B9]),
  (Char.ofNat 0x2D1A, [Char.ofNat 0x10BA]), (Char.ofNat 0x2D1B, [Char.ofNat 0x10BB]),
  (Char.ofNat 0x2D1C, [Char.ofNat 0x10BC]), (Char.ofNat 0x2D1D, [Char.ofNat 0x10BD]),
  (Char.ofNat 0x2D1E, [Char.ofNat 0x10BE]), (Char.ofNat 0x2D1F, [Char.ofNat 0x10BF]),
  (Char.ofNat 0x2D20, [Char.ofNat 0x10C0]), (Char.ofNat 0x2D21, [Char.ofNat 0x10C1]),
  (Char.ofNat 0x2D22, [Char.ofNat 0x10C2]), (Char.ofNat 0x2D23, [Char.ofNat 0x10C3]),
  (Char.ofNat 0x2D24, [Char.ofNat 0x10C4]), (Char.ofNat 0x2D25, [Char.ofNat 0x10C5]),
  (Char.ofNat 0x2D27, [Char.ofNat 0x10C7]), (Char.ofNat 0x2D2D, [Char.ofNat 0x10CD]),
  (Char.ofNat 0xA641, [Char.ofNat 0xA640]), (Char.ofNat 0xA643, [Char.ofNat 0xA642]),
  (Char.ofNat 0xA645, [Char.ofNat 0xA644]), (Char.ofNat 0xA647, [Char.ofNat 0xA646]),
  (Char.ofNat 0xA649, [Char.ofNat 0xA648]), (Char.ofNat 0xA64B, [Char.ofNat 0xA64A]),
  (Char.ofNat 0xA64D, [Char.ofNat 0xA64C]), (Char.ofNat 0xA64F, [Char.ofNat 0xA64E]),
  (Char.ofNat 0xA651, [Char.ofNat 0xA650]), (Char.ofNat 0xA653, [Char.ofNat 0xA652]),
  (Char.ofNat 0xA655, [Char.ofNat 0xA654]), (Char.ofNat 0xA657, [Char.ofNat 0xA656]),
  (Char.ofNat 0xA659, [Char.ofNat 0xA658]), (Char.ofNat 0xA65B, [Char.ofNat 0xA65A]),
  (Char.ofNat 0xA65D, [Char.ofNat 0xA65C]), (Char.ofNat 0xA65F, [Char.ofNat 0xA65E]),
  (Char.ofNat 0xA661, [Char.ofNat 0xA660]), (Char.ofNat 0xA663, [Char.ofNat 0xA662]),
  (Char.ofNat 0xA665, [Char.ofNat 0xA664]), (Char.ofNat 0xA667, [Char.ofNat 0xA666]),
  (Char.ofNat 0xA669, [Char.ofNat 0xA668]), (Char.ofNat 0xA66B, [Char.ofNat 0xA66A]),
  (Char.ofNat 0xA66D, [Char.ofNat 0xA66C]), (Char.ofNat 0xA681, [Char.ofNat 0xA680]),
  (Char.ofNat 0xA683, [Char.ofNat 0xA682]), (Char.ofNat 0xA685, [Char.ofNat 0xA684]),
  (Char.ofNat 0xA687, [Char.ofNat 0xA686]), (Char.ofNat 0xA689, [Char.ofNat 0xA688]),
  (Char.ofNat 0xA68B, [Char.ofNat 0xA68A]), (Char.ofNat 0xA68D, [Char.ofNat 0xA68C]),
  (Char.ofNat 0xA68F, [Char.ofNat 0xA68E]), (Char.ofNat 0xA691, [Char.ofNat 0xA690]),
  (Char.ofNat 0xA693, [Char.ofNat 0xA692]), (Char.ofNat 0xA695, [Char.ofNat 0xA694]),
  (Char.ofNat 0xA697, [Char.ofNat 0xA696]), (Char.ofNat 0xA699, [Char.ofNat 0xA698]),
  (Char.ofNat 0xA69B, [Char.ofNat 0xA69A]), (Char.ofNat 0xA723, [Char.ofNat 0xA722]),
  (Char.ofNat 0xA725, [Char.ofNat 0xA724]), (Char.ofNat 0xA727, [Char.ofNat 0xA726]),
  (Char.ofNat 0xA729, [Char.ofNat 0xA728]), (Char.ofNat 0xA72B, [Char.ofNat 0xA72A]),
  (Char.ofNat 0xA72D, [Char.ofNat 0xA72C]), (Char.ofNat 0xA72F, [Char.ofNat 0xA72E]),
  (Char.ofNat 0xA733, [Char.ofNat 0xA732]), (Char.ofNat 0xA735, [Char.ofNat 0xA734]),
  (Char.ofNat 0xA737, [Char.ofNat 0xA736]), (Char.ofNat 0xA739, [Char.ofNat 0xA738]),
  (Char.ofNat 0xA73B, [Char.ofNat 0xA73A]), (Char.ofNat 0xA73D, [Char.ofNat 0xA73C]),
  (Char.ofNat 0xA73F, [Char.ofNat 0xA73E]), (Char.ofNat 0xA741, [Char.ofNat 0xA740]),
  (Char.ofNat 0xA743, [Char.ofNat 0xA742]), (Char.ofNat 0xA745, [Char.ofNat 0xA744]),
  (Char.ofNat 0xA747, [Char.ofNat 0xA746]), (Char.ofNat 0xA749, [Char.ofNat 0xA748]),
  (Char.ofNat 0xA74B, [Char.ofNat 0xA74A]), (Char.ofNat 0xA74D, [Char.ofNat 0xA74C]),
  (Char.ofNat 0xA74F, [Char.ofNat 0xA74E]), (Char.ofNat 0xA751, [Char.ofNat 0xA750]),
  (Char.ofNat 0xA753, [Char.ofNat 0xA752]), (Char.ofNat 0xA755, [Char.ofNat 0xA754]),
  (Char.ofNat 0xA757, [Char.ofNat 0xA756]), (Char.ofNat 0xA759, [Char.ofNat 0xA758]),
  (Char.ofNat 0xA75B, [Char.ofNat 0xA75A]), (Char.ofNat 0xA75D, [Char.ofNat 0xA75C]),
  (Char.ofNat 0xA75F, [Char.ofNat 0xA75E]), (Char.ofNat 0xA761, [Char.ofNat 0xA760]),
  (Char.ofNat 0xA763, [Char.ofNat 0xA762]), (Char.ofNat 0xA765, [Char.ofNat 0xA764]),
  (Char.ofNat 0xA767, [Char.ofNat 0xA766]), (Char.ofNat 0xA769, [Char.ofNat 0xA768]),
  (Char.ofNat 0xA76B, [Char.ofNat 0xA76A]), (Char.ofNat 0xA76D, [Char.ofNat 0xA76C]),
  (Char.ofNat 0xA76F, [Char.ofNat 0xA76E]), (Char.ofNat 0xA77A, [Char.ofNat 0xA779]),
  (Char.ofNat 0xA77C, [Char.ofNat 0xA77B]), (Char.ofNat 0xA77F, [Char.ofNat 0xA77E]),
  (Char.ofNat 0xA781, [Char.ofNat 0xA780]), (Char.ofNat 0xA783, [Char.ofNat 0xA782]),
  (Char.ofNat 0xA785, [Char.ofNat 0xA784]), (Char.ofNat 0xA787, [Char.ofNat 0xA786]),
  (Char.ofNat 0xA78C, [Char.ofNat 0xA78B]), (Char.ofNat 0xA791, [Char.ofNat 0xA790]),
  (Char.ofNat 0xA793, [Char.ofNat 0xA792]), (Char.ofNat 0xA794, [Char.ofNat 0xA7C4]),
  (Char.ofNat 0xA797, [Char.ofNat 0xA796]), (Char.ofNat 0xA799, [Char.ofNat 0xA798]),
  (Char.ofNat 0xA79B, [Char.ofNat 0xA79A]), (Char.ofNat 0xA79D, [Char.ofNat 0xA79C]),
  (Char.ofNat 0xA79F, [Char.ofNat 0xA79E]), (Char.ofNat 0xA7A1, [Char.ofNat 0xA7A0]),
  (Char.ofNat 0xA7A3, [Char.ofNat 0xA7A2]), (Char.ofNat 0xA7A5, [Char.ofNat 0xA7A4]),
  (Char.ofNat 0xA7A7, [Char.ofNat 0xA7A6]), (Char.ofNat 0xA7A9, [Char.ofNat 0xA7A8]),
  (Char.ofNat 0xA7B5, [Char.ofNat 0xA7B4]), (Char.ofNat 0xA7B7, [Char.ofNat 0xA7B6]),
  (Char.ofNat 0xA7B9, [Char.ofNat 0xA7B8]), (Char.ofNat 0xA7BB, [Char.ofNat 0xA7BA]),
  (Char.ofNat 0xA7BD, [Char.ofNat 0xA7BC]), (Char.ofNat 0xA7BF, [Char.ofNat 0xA7BE]),
  (Char.ofNat 0xA7C1, [Char.ofNat 0xA7C0]), (Char.ofNat 0xA7C3, [Char.ofNat 0xA7C2]),
  (Char.ofNat 0xA7C8, [Char.ofNat 0xA7C7]), (Char.ofNat 0xA7CA, [Char.ofNat 0xA7C9]),
  (Char.ofNat 0xA7D1, [Char.ofNat 0xA7D0]), (Char.ofNat 0xA7D7, [Char.ofNat 0xA7D6]),
  (Char.ofNat 0xA7D9, [Char.ofNat 0xA7D8]), (Char.ofNat 0xA7F6, [Char.ofNat 0xA7F5]),
  (Char.ofNat 0xAB53, [Char.ofNat 0xA7B3]), (Char.ofNat 0xAB70, [Char.ofNat 0x13A0]),
  (Char.ofNat 0xAB71, [Char.ofNat 0x13A1]), (Char.ofNat 0xAB72, [Char.ofNat 0x13A2]),
  (Char.ofNat 0xAB73, [Char.ofNat 0x13A3]), (Char.ofNat 0xAB74, [Char.ofNat 0x13A4]),
  (Char.ofNat 0xAB75, [Char.ofNat 0x13A5]), (Char.ofNat 0xAB76, [Char.ofNat 0x13A6]),
  (Char.ofNat 0xAB77, [Char.ofNat 0x13A7]), (Char.ofNat 0xAB78, [Char.ofNat 0x13A8]),
  (Char.ofNat 0xAB79, [Char.ofNat 0x13A9]), (Char.ofNat 0xAB7A, [Char.ofNat 0x13AA]),
  (Char.ofNat 0xAB7B, [Char.ofNat 0x13AB]), (Char.ofNat 0xAB7C, [Char.ofNat 0x13AC]),
  (Char.ofNat 0xAB7D, [Char.ofNat 0x13AD]), (Char.ofNat 0xAB7E, [Char.ofNat 0x13AE]),
  (Char.ofNat 0xAB7F, [Char.ofNat 0x13AF]), (Char.ofNat 0xAB80, [Char.ofNat 0x13B0]),
  (Char.ofNat 0xAB81, [Char.ofNat 0x13B1]), (Char.ofNat 0xAB82, [Char.ofNat 0x13B2]),
  (Char.ofNat 0xAB83, [Char.ofNat 0x13B3]), (Char.ofNat 0xAB84, [Char.ofNat 0x13B4]),
  (Char.ofNat 0xAB85, [Char.ofNat 0x13B5]), (Char.ofNat 0xAB86, [Char.ofNat 0x13B6]),
  (Char.ofNat 0xAB87, [Char.ofNat 0x13B7]), (Char.ofNat 0xAB88, [Char.ofNat 0x13B8]),
  (Char.ofNat 0xAB89, [Char.ofNat 0x13B9]), (Char.ofNat 0xAB8A, [Char.ofNat 0x13BA]),
  (Char.ofNat 0xAB8B, [Char.ofNat 0x13BB]), (Char.ofNat 0xAB8C, [Char.ofNat 0x13BC]),
  (Char.ofNat 0xAB8D, [Char.ofNat 0x13BD]), (Char.ofNat 0xAB8E, [Char.ofNat 0x13BE]),
  (Char.ofNat 0xAB8F, [Char.ofNat 0x13BF]), (Char.ofNat 0xAB90, [Char.ofNat 0x13C0]),
  (Char.ofNat 0xAB91, [Char.ofNat 0x13C1]), (Char.ofNat 0xAB92, [Char.ofNat 0x13C2]),
  (Char.ofNat 0xAB93, [Char.ofNat 0x13C3]), (Char.ofNat 0xAB94, [Char.ofNat 0x13C4]),
  (Char.ofNat 0xAB95, [Char.ofNat 0x13C5]), (Char.ofNat 0xAB96, [Char.ofNat 0x13C6]),
  (Char.ofNat 0xAB97, [Char.ofNat 0x13C7]), (Char.ofNat 0xAB98, [Char.ofNat 0x13C8]),
  (Char.ofNat 0xAB99, [Char.ofNat 0x13C9]), (Char.ofNat 0xAB9A, [Char.ofNat 0x13CA]),
  (Char.ofNat 0xAB9B, [Char.ofNat 0x13CB]), (Char.ofNat 0xAB9C, [Char.ofNat 0x13CC]),
  (Char.ofNat 0xAB9D, [Char.ofNat 0x13CD]), (Char.ofNat 0xAB9E, [Char.ofNat 0x13CE]),
  (Char.ofNat 0xAB9F, [Char.ofNat 0x13CF]), (Char.ofNat 0xABA0, [Char.ofNat 0x13D0]),
  (Char.ofNat 0xABA1, [Char.ofNat 0x13D1]), (Char.ofNat 0xABA2, [Char.ofNat 0x13D2]),
  (Char.ofNat 0xABA3, [Char.ofNat 0x13D3]), (Char.ofNat 0xABA4, [Char.ofNat 0x13D4]),
  (Char.ofNat 0xABA5, [Char.ofNat 0x13D5]), (Char.ofNat 0xABA6, [Char.ofNat 0x13D6]),
  (Char.ofNat 0xABA7, [Char.ofNat 0x13D7]), (Char.ofNat 0xABA8, [Char.ofNat 0x13D8]),
  (Char.ofNat 0xABA9, [Char.ofNat 0x13D9]), (Char.ofNat 0xABAA, [Char.ofNat 0x13DA]),
  (Char.ofNat 0xABAB, [Char.ofNat 0x13DB]), (Char.ofNat 0xABAC, [Char.ofNat 0x13DC]),
  (Char.ofNat 0xABAD, [Char.ofNat 0x13DD]), (Char.ofNat 0xABAE, [Char.ofNat 0x13DE]),
  (Char.ofNat 0xABAF, [Char.ofNat 0x13DF]), (Char.ofNat 0xABB0, [Char.ofNat 0x13E0]),
  (Char.ofNat 0xABB1, [Char.ofNat 0x13E1]), (Char.ofNat 0xABB2, [Char.ofNat 0x13E2]),
  (Char.ofNat 0xABB3, [Char.ofNat 0x13E3]), (Char.ofNat 0xABB4, [Char.ofNat 0x13E4]),
  (Char.ofNat 0xABB5, [Char.ofNat 0x13E5]), (Char.ofNat 0xABB6, [Char.ofNat 0x13E6]),
  (Char.ofNat 0xABB7, [Char.ofNat 0x13E7]), (Char.ofNat 0xABB8, [Char.ofNat 0x13E8]),
  (Char.ofNat 0xABB9, [Char.ofNat 0x13E9]), (Char.ofNat 0xABBA, [Char.ofNat 0x13EA]),
  (Char.ofNat 0xABBB, [Char.ofNat 0x13EB]), (Char.ofNat 0xABBC, [Char.ofNat 0x13EC]),
  (Char.ofNat 0xABBD, [Char.ofNat 0x13ED]), (Char.ofNat 0xABBE, [Char.ofNat 0x13EE]),
  (Char.ofNat 0xABBF, [Char.ofNat 0x13EF]), (Char.ofNat 0xFB00, [Char.ofNat 0x0046, Char.ofNat 0x0046]),
  (Char.ofNat 0xFB01, [Char.ofNat 0x0046, Char.ofNat 0x0049]), (Char.ofNat 0xFB02, [Char.ofNat 0x0046, Char.ofNat 0x004C]),
  (Char.ofNat 0xFB03, [Char.ofNat 0x0046, Char.ofNat 0x0046, Char.ofNat 0x0049]), (Char.ofNat 0xFB04, [Char.ofNat 0x0046, Char.ofNat 0x0046, Char.ofNat 0x004C]),
  (Char.ofNat 0xFB05, [Char.ofNat 0x0053, Char.ofNat 0x0054]), (Char.ofNat 0xFB06, [Char.ofNat 0x0053, Char.ofNat 0x0054]),
  (Char.ofNat 0xFB13, [Char.ofNat 0x0544, Char.ofNat 0x0546]), (Char.ofNat 0xFB14, [Char.ofNat 0x0544, Char.ofNat 0x0535]),
  (Char.ofNat 0xFB15, [Char.ofNat 0x0544, Char.ofNat 0x053B]), (Char.ofNat 0xFB16, [Char.ofNat 0x054E, Char.ofNat 0x0546]),
  (Char.ofNat 0xFB17, [Char.ofNat 0x0544, Char.ofNat 0x053D]), (Char.ofNat 0xFF41, [Char.ofNat 0xFF21]),
  (Char.ofNat 0xFF42, [Char.ofNat 0xFF22]), (Char.ofNat 0xFF43, [Char.ofNat 0xFF23]),
  (Char.ofNat 0xFF44, [Char.ofNat 0xFF24]), (Char.ofNat 0xFF45, [Char.ofNat 0xFF25]),
  (Char.ofNat 0xFF46, [Char.ofNat 0xFF26]), (Char.ofNat 0xFF47, [Char.ofNat 0xFF27]),
  (Char.ofNat 0xFF48, [Char.ofNat 0xFF28]), (Char.ofNat 0xFF49, [Char.ofNat 0xFF29]),
  (Char.ofNat 0xFF4A, [Char.ofNat 0xFF2A]), (Char.ofNat 0xFF4B, [Char.ofNat 0xFF2B]),
  (Char.ofNat 0xFF4C, [Char.ofNat 0xFF2C]), (Char.ofNat 0xFF4D, [Char.ofNat 0xFF2D]),
  (Char.ofNat 0xFF4E, [Char.ofNat 0xFF2E]), (Char.ofNat 0xFF4F, [Char.ofNat 0xFF2F]),
  (Char.ofNat 0xFF50, [Char.ofNat 0xFF30]), (Char.ofNat 0xFF51, [Char.ofNat 0xFF31]),
  (Char.ofNat 0xFF52, [Char.ofNat 0xFF32]), (Char.ofNat 0xFF53, [Char.ofNat 0xFF33]),
  (Char.ofNat 0xFF54, [Char.ofNat 0xFF34]), (Char.ofNat 0xFF55, [Char.ofNat 0xFF35]),
  (Char.ofNat 0xFF56, [Char.ofNat 0xFF36]), (Char.ofNat 0xFF57, [Char.ofNat 0xFF37]),
  (Char.ofNat 0xFF58, [Char.ofNat 0xFF38]), (Char.ofNat 0xFF59, [Char.ofNat 0xFF39]),
  (Char.ofNat 0xFF5A, [Char.ofNat 0xFF3A]), (Char.ofNat 0x10428, [Char.ofNat 0x10400]),
  (Char.ofNat 0x10429, [Char.ofNat 0x10401]), (Char.ofNat 0x1042A, [Char.ofNat 0x10402]),
  (Char.ofNat 0x1042B, [Char.ofNat 0x10403]), (Char.ofNat 0x1042C, [Char.ofNat 0x10404]),
  (Char.ofNat 0x1042D, [Char.ofNat 0x10405]), (Char.ofNat 0x1042E, [Char.ofNat 0x10406]),
  (Char.ofNat 0x1042F, [Char.ofNat 0x10407]), (Char.ofNat 0x10430, [Char.ofNat 0x10408]),
  (Char.ofNat 0x10431, [Char.ofNat 0x10409]), (Char.ofNat 0x10432, [Char.ofNat 0x1040A]),
  (Char.ofNat 0x10433, [Char.ofNat 0x1040B]), (Char.ofNat 0x10434, [Char.ofNat 0x1040C]),
  (Char.ofNat 0x10435, [Char.ofNat 0x1040D]), (Char.ofNat 0x10436, [Char.ofNat 0x1040E]),
  (Char.ofNat 0x10437, [Char.ofNat 0x1040F]), (Char.ofNat 0x10438, [Char.ofNat 0x10410]),
  (Char.ofNat 0x10439, [Char.ofNat 0x10411]), (Char.ofNat 0x1043A, [Char.ofNat 0x10412]),
  (Char.ofNat 0x1043B, [Char.ofNat 0x10413]), (Char.ofNat 0x1043C, [Char.ofNat 0x10414]),
  (Char.ofNat 0x1043D, [Char.ofNat 0x10415]), (Char.ofNat 0x1043E, [Char.ofNat 0x10416]),
  (Char.ofNat 0x1043F, [Char.ofNat 0x10417]), (Char.ofNat 0x10440, [Char.ofNat 0x10418]),
  (Char.ofNat 0x10441, [Char.ofNat 0x10419]), (Char.ofNat 0x10442, [Char.ofNat 0x1041A]),
  (Char.ofNat 0x10443, [Char.ofNat 0x1041B]), (Char.ofNat 0x10444, [Char.ofNat 0x1041C]),
  (Char.ofNat 0x10445, [Char.ofNat 0x1041D]), (Char.ofNat 0x10446, [Char.ofNat 0x1041E]),
  (Char.ofNat 0x10447, [Char.ofNat 0x1041F]), (Char.ofNat 0x10448, [Char.ofNat 0x10420]),
  (Char.ofNat 0x10449, [Char.ofNat 0x10421]), (Char.ofNat 0x1044A, [Char.ofNat 0x10422]),
  (Char.ofNat 0x1044B, [Char.ofNat 0x10423]), (Char.ofNat 0x1044C, [Char.ofNat 0x10424]),
  (Char.ofNat 0x1044D, [Char.ofNat 0x10425]), (Char.ofNat 0x1044E, [Char.ofNat 0x10426]),
  (Char.ofNat 0x1044F, [Char.ofNat 0x10427]), (Char.ofNat 0x104D8, [Char.ofNat 0x104B0]),
  (Char.ofNat 0x104D9, [Char.ofNat 0x104B1]), (Char.ofNat 0x104DA, [Char.ofNat 0x104B2]),
  (Char.ofNat 0x104DB, [Char.ofNat 0x104B3]), (Char.ofNat 0x104DC, [Char.ofNat 0x104B4]),
  (Char.ofNat 0x104DD, [Char.ofNat 0x104B5]), (Char.ofNat 0x104DE, [Char.ofNat 0x104B6]),
  (Char.ofNat 0x104DF, [Char.ofNat 0x104B7]), (Char.ofNat 0x104E0, [Char.ofNat 0x104B8]),
  (Char.ofNat 0x104E1, [Char.ofNat 0x104B9]), (Char.ofNat 0x104E2, [Char.ofNat 0x104BA]),
  (Char.ofNat 0x104E3, [Char.ofNat 0x104BB]), (Char.ofNat 0x104E4, [Char.ofNat 0x104BC]),
  (Char.ofNat 0x104E5, [Char.ofNat 0x104BD]), (Char.ofNat 0x104E6, [Char.ofNat 0x104BE]),
  (Char.ofNat 0x104E7, [Char.ofNat 0x104BF]), (Char.ofNat 0x104E8, [Char.ofNat 0x104C0]),
  (Char.ofNat 0x104E9, [Char.ofNat 0x104C1]), (Char.ofNat 0x104EA, [Char.ofNat 0x104C2]),
  (Char.ofNat 0x104EB, [Char.ofNat 0x104C3]), (Char.ofNat 0x104EC, [Char.ofNat 0x104C4]),
  (Char.ofNat 0x104ED, [Char.ofNat 0x104C5]), (Char.ofNat 0x104EE, [Char.ofNat 0x104C6]),
  (Char.ofNat 0x104EF, [Char.ofNat 0x104C7]), (Char.ofNat 0x104F0, [Char.ofNat 0x104C8]),
  (Char.ofNat 0x104F1, [Char.ofNat 0x104C9]), (Char.ofNat 0x104F2, [Char.ofNat 0x104CA]),
  (Char.ofNat 0x104F3, [Char.ofNat 0x104CB]), (Char.ofNat 0x104F4, [Char.ofNat 0x104CC]),
  (Char.ofNat 0x104F5, [Char.ofNat 0x104CD]), (Char.ofNat 0x104F6, [Char.ofNat 0x104CE]),
  (Char.ofNat 0x104F7, [Char.ofNat 0x104CF]), (Char.ofNat 0x104F8, [Char.ofNat 0x104D0]),
  (Char.ofNat 0x104F9, [Char.ofNat 0x104D1]), (Char.ofNat 0x104FA, [Char.ofNat 0x104D2]),
  (Char.ofNat 0x104FB, [Char.ofNat 0x104D3]), (Char.ofNat 0x10597, [Char.ofNat 0x10570]),
  (Char.ofNat 0x10598, [Char.ofNat 0x10571]), (Char.ofNat 0x10599, [Char.ofNat 0x10572]),
  (Char.ofNat 0x1059A, [Char.ofNat 0x10573]), (Char.ofNat 0x1059B, [Char.ofNat 0x10574]),
  (Char.ofNat 0x1059C, [Char.ofNat 0x10575]), (Char.ofNat 0x1059D, [Char.ofNat 0x10576]),
  (Char.ofNat 0x1059E, [Char.ofNat 0x10577]), (Char.ofNat 0x1059F, [Char.ofNat 0x10578]),
  (Char.ofNat 0x105A0, [Char.ofNat 0x10579]), (Char.ofNat 0x105A1, [Char.ofNat 0x1057A]),
  (Char.ofNat 0x105A3, [Char.ofNat 0x1057C]), (Char.ofNat 0x105A4, [Char.ofNat 0x1057D]),
  (Char.ofNat 0x105A5, [Char.ofNat 0x1057E]), (Char.ofNat 0x105A6, [Char.ofNat 0x1057F]),
  (Char.ofNat 0x105A7, [Char.ofNat 0x10580]), (Char.ofNat 0x105A8, [Char.ofNat 0x10581]),
  (Char.ofNat 0x105A9, [Char.ofNat 0x10582]), (Char.ofNat 0x105AA, [Char.ofNat 0x10583]),
  (Char.ofNat 0x105AB, [Char.ofNat 0x10584]), (Char.ofNat 0x105AC, [Char.ofNat 0x10585]),
  (Char.ofNat 0x105AD, [Char.ofNat 0x10586]), (Char.ofNat 0x105AE, [Char.ofNat 0x10587]),
  (Char.ofNat 0x105AF, [Char.ofNat 0x10588]), (Char.ofNat 0x105B0, [Char.ofNat 0x10589]),
  (Char.ofNat 0x105B1, [Char.ofNat 0x1058A]), (Char.ofNat 0x105B3, [Char.ofNat 0x1058C]),
  (Char.ofNat 0x105B4, [Char.ofNat 0x1058D]), (Char.ofNat 0x105B5, [Char.ofNat 0x1058E]),
  (Char.ofNat 0x105B6, [Char.ofNat 0x1058F]), (Char.ofNat 0x105B7, [Char.ofNat 0x10590]),
  (Char.ofNat 0x105B8, [Char.ofNat 0x10591]), (Char.ofNat 0x105B9, [Char.ofNat 0x10592]),
  (Char.ofNat 0x105BB, [Char.ofNat 0x10594]), (Char.ofNat 0x105BC, [Char.ofNat 0x10595]),
  (Char.ofNat 0x10CC0, [Char.ofNat 0x10C80]), (Char.ofNat 0x10CC1, [Char.ofNat 0x10C81]),
  (Char.ofNat 0x10CC2, [Char.ofNat 0x10C82]), (Char.ofNat 0x10CC3, [Char.ofNat 0x10C83]),
  (Char.ofNat 0x10CC4, [Char.ofNat 0x10C84]), (Char.ofNat 0x10CC5, [Char.ofNat 0x10C85]),
  (Char.ofNat 0x10CC6, [Char.ofNat 0x10C86]), (Char.ofNat 0x10CC7, [Char.ofNat 0x10C87]),
  (Char.ofNat 0x10CC8, [Char.ofNat 0x10C88]), (Char.ofNat 0x10CC9, [Char.ofNat 0x10C89]),
  (Char.ofNat 0x10CCA, [Char.ofNat 0x10C8A]), (Char.ofNat 0x10CCB, [Char.ofNat 0x10C8B]),
  (Char.ofNat 0x10CCC, [Char.ofNat 0x10C8C]), (Char.ofNat 0x10CCD, [Char.ofNat 0x10C8D]),
  (Char.ofNat 0x10CCE, [Char.ofNat 0x10C8E]), (Char.ofNat 0x10CCF, [Char.ofNat 0x10C8F]),
  (Char.ofNat 0x10CD0, [Char.ofNat 0x10C90]), (Char.ofNat 0x10CD1, [Char.ofNat 0x10C91]),
  (Char.ofNat 0x10CD2, [Char.ofNat 0x10C92]), (Char.ofNat 0x10CD3, [Char.ofNat 0x10C93]),
  (Char.ofNat 0x10CD4, [Char.ofNat 0x10C94]), (Char.ofNat 0x10CD5, [Char.ofNat 0x10C95]),
  (Char.ofNat 0x10CD6, [Char.ofNat 0x10C96]), (Char.ofNat 0x10CD7, [Char.ofNat 0x10C97]),
  (Char.ofNat 0x10CD8, [Char.ofNat 0x10C98]), (Char.ofNat 0x10CD9, [Char.ofNat 0x10C99]),
  (Char.ofNat 0x10CDA, [Char.ofNat 0x10C9A]), (Char.ofNat 0x10CDB, [Char.ofNat 0x10C9B]),
  (Char.ofNat 0x10CDC, [Char.ofNat 0x10C9C]), (Char.ofNat 0x10CDD, [Char.ofNat 0x10C9D]),
  (Char.ofNat 0x10CDE, [Char.ofNat 0x10C9E]), (Char.ofNat 0x10CDF, [Char.ofNat 0x10C9F]),
  (Char.ofNat 0x10CE0, [Char.ofNat 0x10CA0]), (Char.ofNat 0x10CE1, [Char.ofNat 0x10CA1]),
  (Char.ofNat 0x10CE2, [Char.ofNat 0x10CA2]), (Char.ofNat 0x10CE3, [Char.ofNat 0x10CA3]),
  (Char.ofNat 0x10CE4, [Char.ofNat 0x10CA4]), (Char.ofNat 0x10CE5, [Char.ofNat 0x10CA5]),
  (Char.ofNat 0x10CE6, [Char.ofNat 0x10CA6]), (Char.ofNat 0x10CE7, [Char.ofNat 0x10CA7]),
  (Char.ofNat 0x10CE8, [Char.ofNat 0x10CA8]), (Char.ofNat 0x10CE9, [Char.ofNat 0x10CA9]),
  (Char.ofNat 0x10CEA, [Char.ofNat 0x10CAA]), (Char.ofNat 0x10CEB, [Char.ofNat 0x10CAB]),
  (Char.ofNat 0x10CEC, [Char.ofNat 0x10CAC]), (Char.ofNat 0x10CED, [Char.ofNat 0x10CAD]),
  (Char.ofNat 0x10CEE, [Char.ofNat 0x10CAE]), (Char.ofNat 0x10CEF, [Char.ofNat 0x10CAF]),
  (Char.ofNat 0x10CF0, [Char.ofNat 0x10CB0]), (Char.ofNat 0x10CF1, [Char.ofNat 0x10CB1]),
  (Char.ofNat 0x10CF2, [Char.ofNat 0x10CB2]), (Char.ofNat 0x118C0, [Char.ofNat 0x118A0]),
  (Char.ofNat 0x118C1, [Char.ofNat 0x118A1]), (Char.ofNat 0x118C2, [Char.ofNat 0x118A2]),
  (Char.ofNat 0x118C3, [Char.ofNat 0x118A3]), (Char.ofNat 0x118C4, [Char.ofNat 0x118A4]),
  (Char.ofNat 0x118C5, [Char.ofNat 0x118A5]), (Char.ofNat 0x118C6, [Char.ofNat 0x118A6]),
  (Char.ofNat 0x118C7, [Char.ofNat 0x118A7]), (Char.ofNat 0x118C8, [Char.ofNat 0x118A8]),
  (Char.ofNat 0x118C9, [Char.ofNat 0x118A9]), (Char.ofNat 0x118CA, [Char.ofNat 0x118AA]),
  (Char.ofNat 0x118CB, [Char.ofNat 0x118AB]), (Char.ofNat 0x118CC, [Char.ofNat 0x118AC]),
  (Char.ofNat 0x118CD, [Char.ofNat 0x118AD]), (Char.ofNat 0x118CE, [Char.ofNat 0x118AE]),
  (Char.ofNat 0x118CF, [Char.ofNat 0x118AF]), (Char.ofNat 0x118D0, [Char.ofNat 0x118B0]),
  (Char.ofNat 0x118D1, [Char.ofNat 0x118B1]), (Char.ofNat 0x118D2, [Char.ofNat 0x118B2]),
  (Char.ofNat 0x118D3, [Char.ofNat 0x118B3]), (Char.ofNat 0x118D4, [Char.ofNat 0x118B4]),
  (Char.ofNat 0x118D5, [Char.ofNat 0x118B5]), (Char.ofNat 0x118D6, [Char.ofNat 0x118B6]),
  (Char.ofNat 0x118D7, [Char.ofNat 0x118B7]), (Char.ofNat 0x118D8, [Char.ofNat 0x118B8]),
  (Char.ofNat 0x118D9, [Char.ofNat 0x118B9]), (Char.ofNat 0x118DA, [Char.ofNat 0x118BA]),
  (Char.ofNat 0x118DB, [Char.ofNat 0x118BB]), (Char.ofNat 0x118DC, [Char.ofNat 0x118BC]),
  (Char.ofNat 0x118DD, [Char.ofNat 0x118BD]), (Char.ofNat 0x118DE, [Char.ofNat 0x118BE]),
  (Char.ofNat 0x118DF, [Char.ofNat 0x118BF]), (Char.ofNat 0x16E60, [Char.ofNat 0x16E40]),
  (Char.ofNat 0x16E61, [Char.ofNat 0x16E41]), (Char.ofNat 0x16E62, [Char.ofNat 0x16E42]),
  (Char.ofNat 0x16E63, [Char.ofNat 0x16E43]), (Char.ofNat 0x16E64, [Char.ofNat 0x16E44]),
  (Char.ofNat 0x16E65, [Char.ofNat 0x16E45]), (Char.ofNat 0x16E66, [Char.ofNat 0x16E46]),
  (Char.ofNat 0x16E67, [Char.ofNat 0x16E47]), (Char.ofNat 0x16E68, [Char.ofNat 0x16E48]),
  (Char.ofNat 0x16E69, [Char.ofNat 0x16E49]), (Char.ofNat 0x16E6A, [Char.ofNat 0x16E4A]),
  (Char.ofNat 0x16E6B, [Char.ofNat 0x16E4B]), (Char.ofNat 0x16E6C, [Char.ofNat 0x16E4C]),
  (Char.ofNat 0x16E6D, [Char.ofNat 0x16E4D]), (Char.ofNat 0x16E6E, [Char.ofNat 0x16E4E]),
  (Char.ofNat 0x16E6F, [Char.ofNat 0x16E4F]), (Char.ofNat 0x16E70, [Char.ofNat 0x16E50]),
  (Char.ofNat 0x16E71, [Char.ofNat 0x16E51]), (Char.ofNat 0x16E72, [Char.ofNat 0x16E52]),
  (Char.ofNat 0x16E73, [Char.ofNat 0x16E53]), (Char.ofNat 0x16E74, [Char.ofNat 0x16E54]),
  (Char.ofNat 0x16E75, [Char.ofNat 0x16E55]), (Char.ofNat 0x16E76, [Char.ofNat 0x16E56]),
  (Char.ofNat 0x16E77, [Char.ofNat 0x16E57]), (Char.ofNat 0x16E78, [Char.ofNat 0x16E58]),
  (Char.ofNat 0x16E79, [Char.ofNat 0x16E59]), (Char.ofNat 0x16E7A, [Char.ofNat 0x16E5A]),
  (Char.ofNat 0x16E7B, [Char.ofNat 0x16E5B]), (Char.ofNat 0x16E7C, [Char.ofNat 0x16E5C]),
  (Char.ofNat 0x16E7D, [Char.ofNat 0x16E5D]), (Char.ofNat 0x16E7E, [Char.ofNat 0x16E5E]),
  (Char.ofNat 0x16E7F, [Char.ofNat 0x16E5F]), (Char.ofNat 0x1E922, [Char.ofNat 0x1E900]),
  (Char.ofNat 0x1E923, [Char.ofNat 0x1E901]), (Char.ofNat 0x1E924, [Char.ofNat 0x1E902]),
  (Char.ofNat 0x1E925, [Char.ofNat 0x1E903]), (Char.ofNat 0x1E926, [Char.ofNat 0x1E904]),
  (Char.ofNat 0x1E927, [Char.ofNat 0x1E905]), (Char.ofNat 0x1E928, [Char.ofNat 0x1E906]),
  (Char.ofNat 0x1E929, [Char.ofNat 0x1E907]), (Char.ofNat 0x1E92A, [Char.ofNat 0x1E908]),
  (Char.ofNat 0x1E92B, [Char.ofNat 0x1E909]), (Char.ofNat 0x1E92C, [Char.ofNat 0x1E90A]),
  (Char.ofNat 0x1E92D, [Char.ofNat 0x1E90B]), (Char.ofNat 0x1E92E, [Char.ofNat 0x1E90C]),
  (Char.ofNat 0x1E92F, [Char.ofNat 0x1E90D]), (Char.ofNat 0x1E930, [Char.ofNat 0x1E90E]),
  (Char.ofNat 0x1E931, [Char.ofNat 0x1E90F]), (Char.ofNat 0x1E932, [Char.ofNat 0x1E910]),
  (Char.ofNat 0x1E933, [Char.ofNat 0x1E911]), (Char.ofNat 0x1E934, [Char.ofNat 0x1E912]),
  (Char.ofNat 0x1E935, [Char.ofNat 0x1E913]), (Char.ofNat 0x1E936, [Char.ofNat 0x1E914]),
  (Char.ofNat 0x1E937, [Char.ofNat 0x1E915]), (Char.ofNat 0x1E938, [Char.ofNat 0x1E916]),
  (Char.ofNat 0x1E939, [Char.ofNat 0x1E917]), (Char.ofNat 0x1E93A, [Char.ofNat 0x1E918]),
  (Char.ofNat 0x1E93B, [Char.ofNat 0x1E919]), (Char.ofNat 0x1E93C, [Char.ofNat 0x1E91A]),
  (Char.ofNat 0x1E93D, [Char.ofNat 0x1E91B]), (Char.ofNat 0x1E93E, [Char.ofNat 0x1E91C]),
  (Char.ofNat 0x1E93F, [Char.ofNat 0x1E91D]), (Char.ofNat 0x1E940, [Char.ofNat 0x1E91E]),
  (Char.ofNat 0x1E941, [Char.ofNat 0x1E91F]), (Char.ofNat 0x1E942, [Char.ofNat 0x1E920]),
  (Char.ofNat 0x1E943, [Char.ofNat 0x1E921])]

/-- Python str.upper on one character: the table expansion when the
character has one, the character itself otherwise. -/
def pyUpperChar (c : Char) : Str :=
  match upperTable.lookup c with
  | some r => r
  | none => [c]

/-- Python str.upper. -/
def pyUpper : Str → Str
  | [] => []
  | c :: s => pyUpperChar c ++ pyUpper s

/-- Python substring membership (the in operator on str). -/
def strContains : Str → Str → Bool
  | [], nee => nee.isEmpty
  | hay@(_ :: t), nee => nee.isPrefixOf hay || strContains t nee

/-- The source _is_section_heading: uppercase the line, then test for the
SCENA prefix or any of the five keyword substrings. -/
def isSectionHeading (line : Str) : Bool :=
  (chars ("SCENA ")).isPrefixOf (pyUpper line) ||
  strContains (pyUpper line) (chars ("PERSONAGGI")) ||
  strContains (pyUpper line) (chars ("ANTIPASTO")) ||
  strContains (pyUpper line) (chars ("PRIMI")) ||
  strContains (pyUpper line) (chars ("DOLCI")) ||
  strContains (pyUpper line) (chars ("CAFF"))

/-!  Stage-direction stripping (_clean_stage_dirs_start). -/

/-- Inside the leading parenthetical: consume alternatives of non-paren
characters or a one-level nested group, then the closing paren; returns
the rest after the closing paren, or none when the pattern cannot close.
The nested flag is set while inside a nested group, whose body is any run
of non-closing characters up to its own closing paren. -/
def stageAux (nested : Bool) : Str → Option Str
  | [] => none
  | c :: s =>
    if nested then
      if c = ')' then stageAux false s else stageAux true s
    else if c = ')' then some s
    else if c = '(' then stageAux true s
    else stageAux false s

/-- The source _clean_stage_dirs_start: remove one parenthetical anchored
at the very start (one nesting level supported) together with following
whitespace, then strip. -/
def cleanStageDirsStart (s : Str) : Str :=
  let s1 : Str :=
    match s with
    | '(' :: r =>
      match stageAux false r with
      | some rest => rest.dropWhile pySpace
      | none => s
    | _ => s
  pyStrip s1

/-!  Speaker-line detection: the compiled regex speaker_pat. -/

/-- First-character class of the speaker pattern: ASCII uppercase and the
two uppercase Latin-1 ranges. -/
def isUpperStart (c : Char) : Bool :=
  ('A' ≤ c && c ≤ 'Z') || ('À' ≤ c && c ≤ 'Ö') ||
  ('Ø' ≤ c && c ≤ 'Þ')

/-- Repeated-character class of the speaker name: Latin letters of both
cases, the Latin-1 letter ranges, curly and straight apostrophe, space,
dot, hyphen. -/
def isNameChar (c : Char) : Bool :=
  ('A' ≤ c && c ≤ 'Z') || ('a' ≤ c && c ≤ 'z') ||
  ('À' ≤ c && c ≤ 'Ö') || ('Ø' ≤ c && c ≤ 'ö') ||
  ('ø' ≤ c && c ≤ 'ÿ') ||
  c = '’' || c = '\'' || c = ' ' || c = '.' || c = '-'

/-- The optional group of the speaker pattern: an open paren, a run of
non-closing characters, a close paren; returns the consumed text and the
rest. -/
def matchParenGroup (s : Str) : Option (Str × Str) :=
  match s with
  | '(' :: r =>
    match r.dropWhile (fun c => !(c = ')')) with
    | ')' :: rest => some ('(' :: r.takeWhile (fun c => !(c = ')')) ++ [')'], rest)
    | _ => none
  | _ => none

/-- The whitespace-colon-whitespace separator of the speaker pattern;
returns the rest after the separator (the start of the what group). -/
def matchColonWs (s : Str) : Option Str :=
  match s.dropWhile pySpace with
  | ':' :: r => some (r.dropWhile pySpace)
  | _ => none

/-- One backtracking attempt of the speaker pattern with the greedy name
run cut at k characters: the optional parenthetical is tried first, then
its absence, exactly in regex preference order. -/
def trySpeakerSplit (c0 : Char) (tail : Str) (k : Nat) : Option (Str × Str) :=
  let s1 := tail.drop k
  match matchParenGroup s1 with
  | some (p, s2) =>
    match matchColonWs s2 with
    | some what => some (c0 :: (tail.take k ++ p), what)
    | none =>
      match matchColonWs s1 with
      | some what => some (c0 :: tail.take k, what)
      | none => none
  | none =>
    match matchColonWs s1 with
    | some what => some (c0 :: tail.take k, what)
    | none => none

/-- Greedy backtracking over the name-run length, longest cut first. -/
def speakerTryK (c0 : Char) (tail : Str) : Nat → Option (Str × Str)
  | 0 => trySpeakerSplit c0 tail 0
  | Nat.succ k =>
    match trySpeakerSplit c0 tail (Nat.succ k) with
    | some r => some r
    | none => speakerTryK c0 tail k

/-- speaker_pat.match on a whole line: the groups who and what, or none. -/
def speakerMatch (line : Str) : Option (Str × Str) :=
  match line with
  | [] => none
  | c :: tail =>
    if isUpperStart c then speakerTryK c tail (tail.takeWhile isNameChar).length
    else none

/-!  Speaker-name cleanup: the two re.sub calls on the who group. -/

/-- Scanner state for removing parenthetical annotations from the name:
ws buffers whitespace possibly preceding an open paren; inParen buffers
the pending whitespace and paren content until a closing paren confirms
the match; skipws consumes the whitespace after a match. -/
inductive RpSt
  | norm
  | ws (buf : Str)
  | inParen (wbuf : Str) (pbuf : Str)
  | skipws

/-- The re.sub of whitespace, a paren group, and whitespace with nothing,
applied to the matched speaker name. -/
def rpAux : RpSt → Str → Str
  | RpSt.norm, [] => []
  | RpSt.ws buf, [] => buf
  | RpSt.inParen wbuf pbuf, [] => wbuf ++ pbuf
  | RpSt.skipws, [] => []
  | RpSt.norm, c :: s =>
    if c = '(' then rpAux (RpSt.inParen [] ['(']) s
    else if pySpace c then rpAux (RpSt.ws [c]) s
    else c :: rpAux RpSt.norm s
  | RpSt.ws buf, c :: s =>
    if c = '(' then rpAux (RpSt.inParen buf ['(']) s
    else if pySpace c then rpAux (RpSt.ws (buf ++ [c])) s
    else buf ++ c :: rpAux RpSt.norm s
  | RpSt.inParen wbuf pbuf, c :: s =>
    if c = ')' then rpAux RpSt.skipws s
    else rpAux (RpSt.inParen wbuf (pbuf ++ [c])) s
  | RpSt.skipws, c :: s =>
    if pySpace c then rpAux RpSt.skipws s
    else if c = '(' then rpAux (RpSt.inParen [] ['(']) s
    else c :: rpAux RpSt.norm s

/-- Wrapper for the parenthetical removal on the name. -/
def removeParens (s : Str) : Str := rpAux RpSt.norm s

/-- The re.sub of a run of two or more whitespace characters with a single
space, applied to the stripped speaker name. -/
def csAux (skipping : Bool) : Str → Str
  | [] => []
  | c :: s =>
    if skipping then
      if pySpace c then csAux true s else c :: csAux false s
    else if pySpace c then
      match s with
      | [] => [c]
      | c2 :: s2 =>
        if pySpace c2 then ' ' :: csAux true s2
        else c :: c2 :: csAux false s2
    else c :: csAux false s

/-- Wrapper for the whitespace-run collapsing on the name. -/
def collapseSpaces (s : Str) : Str := csAux false s

/-!  The line loop of parse_script_from_pdf. -/

/-- A parsed block: speaker (or the sentinel) and accumulated text. -/
structure Block where
  character : Str
  text : Str
deriving DecidableEq, Repr

/-- The sentinel character value. -/
def scena : Str := chars ("SCENA")

/-- Parser state: emitted blocks plus the open accumulator. -/
structure PState where
  blocks : List Block
  currentName : Option Str
  currentLines : List Str
deriving DecidableEq, Repr

/-- Python truthiness of the current_name variable: set and non-empty. -/
def pyTruthyName : Option Str → Bool
  | none => false
  | some n => !n.isEmpty

/-- The flush closure of the source: if the name is truthy and lines were
accumulated, join them with newlines, strip, and append when non-empty;
always reset the accumulator. -/
def flush (st : PState) : PState :=
  match st.currentName with
  | some n =>
    if n ≠ [] ∧ st.currentLines ≠ [] then
      let joined := pyStrip (List.intercalate ['\n'] st.currentLines)
      if joined ≠ [] then
        ⟨st.blocks ++ [⟨n, joined⟩], none, []⟩
      else ⟨st.blocks, none, []⟩
    else ⟨st.blocks, none, []⟩
  | none => ⟨st.blocks, none, []⟩

/-- The body of the line loop of parse_script_from_pdf, one raw line. -/
def processLine (st : PState) (rawLine : Str) : PState :=
  let line := pyStrip rawLine
  if line = [] then
    if pyTruthyName st.currentName ∧ st.currentLines ≠ [] ∧
        st.currentLines.getLast? ≠ some [] then
      ⟨st.blocks, st.currentName, st.currentLines ++ [[]]⟩
    else st
  else if isSectionHeading line then
    let st2 := flush st
    ⟨st2.blocks ++ [⟨scena, line⟩], st2.currentName, st2.currentLines⟩
  else
    match speakerMatch line with
    | some (who, what) =>
      let st2 := flush st
      let whoClean := collapseSpaces (pyStrip (removeParens who))
      let whatClean := cleanStageDirsStart what
      ⟨st2.blocks, some whoClean, if whatClean ≠ [] then [whatClean] else []⟩
    | none =>
      if line.head? = some '(' ∧ line.getLast? = some ')' then
        let st2 := flush st
        ⟨st2.blocks ++ [⟨scena, line⟩], st2.currentName, st2.currentLines⟩
      else if pyTruthyName st.currentName then
        let line2 := cleanStageDirsStart line
        if line2 ≠ [] then
          ⟨st.blocks, st.currentName, st.currentLines ++ [line2]⟩
        else st
      else ⟨st.blocks ++ [⟨scena, line⟩], st.currentName, st.currentLines⟩

/-- The segmenter: fold the line loop over the split lines, then the final
flush. -/
def segmentLines (lines : List Str) : List Block :=
  (flush (lines.foldl processLine ⟨[], none, []⟩)).blocks

/-- One step of the compaction loop: merge a sentinel candidate into a
sentinel last block (texts joined by a newline, re-stripped), otherwise
append. -/
def compactStep (acc : List Block) (b : Block) : List Block :=
  match acc.getLast? with
  | some l =>
    if b.character = scena ∧ l.character = scena then
      acc.dropLast ++ [⟨l.character, pyStrip (l.text ++ '\n' :: b.text)⟩]
    else acc ++ [b]
  | none => acc ++ [b]

/-- The compaction pass of parse_script_from_pdf. -/
def compactBlocks (bs : List Block) : List Block :=
  bs.foldl compactStep []

/-- The whole parser on the extracted per-page texts: join pages with
newlines, normalize, split into lines, segment, compact. -/
def parseScript (pages : List Str) : List Block :=
  compactBlocks (segmentLines (pySplitlines (precleanText
    (List.intercalate ['\n'] pages))))

end Copione

/-!
The parser of src/app_old.py, translated separately (its parsing code is
lines 63 to 131 of that file). The Python-language-level helpers (chars,
pySpace, pyStrip, pySplitlines) and the scanner state types model the
language, not the repository, and are shared; every repository-specific
definition is re-translated here from app_old.py.
-/

namespace AppOld

open Copione (Str chars pySpace pyStrip pySplitlines pyUpper SluSt StuSt NcSt RpSt Block PState)

/-- Step 1 of the old _preclean_text. -/
def removeCR (s : Str) : Str := s.filter (fun c => !(c = '\r'))

/-- Step 2 of the old _preclean_text. -/
def removeStars : Str → Str
  | [] => []
  | '*' :: '*' :: '*' :: s => removeStars s
  | '*' :: '*' :: s => removeStars s
  | '*' :: s => removeStars s
  | c :: s => c :: removeStars s

/-- Step 3 of the old _preclean_text (scanner). -/
def sluAux : SluSt → Str → Str
  | _, [] => []
  | SluSt.norm atStart, c :: s =>
    if atStart && c = '_' then sluAux SluSt.unders s
    else c :: sluAux (SluSt.norm (c = '\n')) s
  | SluSt.unders, c :: s =>
    if c = '_' then sluAux SluSt.unders s
    else if pySpace c then sluAux (SluSt.ws (c = '\n')) s
    else c :: sluAux (SluSt.norm false) s
  | SluSt.ws lastNl, c :: s =>
    if pySpace c then sluAux (SluSt.ws (c = '\n')) s
    else if lastNl && c = '_' then sluAux SluSt.unders s
    else c :: sluAux (SluSt.norm false) s

/-- Step 3 of the old _preclean_text. -/
def stripLeadUnd (s : Str) : Str := sluAux (SluSt.norm true) s

/-- Step 4 of the old _preclean_text (scanner). -/
def stuAux : StuSt → Str → Str
  | StuSt.norm, [] => []
  | StuSt.ws buf, [] => buf
  | StuSt.und _ _, [] => []
  | StuSt.norm, c :: s =>
    if c = '_' then stuAux (StuSt.und [] ['_']) s
    else if pySpace c then stuAux (StuSt.ws [c]) s
    else c :: stuAux StuSt.norm s
  | StuSt.ws buf, c :: s =>
    if c = '_' then stuAux (StuSt.und buf ['_']) s
    else if pySpace c then stuAux (StuSt.ws (buf ++ [c])) s
    else buf ++ c :: stuAux StuSt.norm s
  | StuSt.und wbuf ubuf, c :: s =>
    if c = '_' then stuAux (StuSt.und wbuf (ubuf ++ ['_'])) s
    else if c = '\n' then stuAux (StuSt.ws ['\n']) s
    else if pySpace c then wbuf ++ ubuf ++ stuAux (StuSt.ws [c]) s
    else wbuf ++ ubuf ++ c :: stuAux StuSt.norm s

/-- Step 4 of the old _preclean_text. -/
def stripTrailUnd (s : Str) : Str := stuAux StuSt.norm s

/-- Step 5a of the old _preclean_text. -/
def replEscOpen : Str → Str
  | [] => []
  | '\\' :: '(' :: s => '(' :: replEscOpen s
  | c :: s => c :: replEscOpen s

/-- Step 5b of the old _preclean_text. -/
def replEscClose : Str → Str
  | [] => []
  | '\\' :: ')' :: s => ')' :: replEscClose s
  | c :: s => c :: replEscClose s

/-- Step 6 of the old _preclean_text (scanner). -/
def ncAux : NcSt → Str → Str
  | NcSt.norm, [] => []
  | NcSt.ws buf, [] => buf
  | NcSt.skipws, [] => []
  | NcSt.norm, c :: s =>
    if c = ':' then ':' :: ' ' :: ncAux NcSt.skipws s
    else if pySpace c then ncAux (NcSt.ws [c]) s
    else c :: ncAux NcSt.norm s
  | NcSt.ws buf, c :: s =>
    if c = ':' then ':' :: ' ' :: ncAux NcSt.skipws s
    else if pySpace c then ncAux (NcSt.ws (buf ++ [c])) s
    else buf ++ c :: ncAux NcSt.norm s
  | NcSt.skipws, c :: s =>
    if c = ':' then ':' :: ' ' :: ncAux NcSt.skipws s
    else if pySpace c then ncAux NcSt.skipws s
    else c :: ncAux NcSt.norm s

/-- Step 6 of the old _preclean_text. -/
def normColons (s : Str) : Str := ncAux NcSt.norm s

/-- Step 7 character class of the old _preclean_text. -/
def isTabLike (c : Char) : Bool :=
  c = '\t' || c = '\x0b' || c = '\x0c' || c = '\u00A0'

/-- Step 7 of the old _preclean_text (scanner). -/
def ctAux (skipping : Bool) : Str → Str
  | [] => []
  | c :: s =>
    if isTabLike c then
      if skipping then ctAux true s else ' ' :: ctAux true s
    else c :: ctAux false s

/-- Step 7 of the old _preclean_text. -/
def collapseTabs (s : Str) : Str := ctAux false s

/-- The old _preclean_text. -/
def precleanText (s : Str) : Str :=
  collapseTabs (normColons (replEscClose (replEscOpen
    (stripTrailUnd (stripLeadUnd (removeStars (removeCR s)))))))

/-- Python substring membership. -/
def strContains : Str → Str → Bool
  | [], nee => nee.isEmpty
  | hay@(_ :: t), nee => nee.isPrefixOf hay || strContains t nee

/-- The old _is_section_heading. -/
def isSectionHeading (line : Str) : Bool :=
  (chars ("SCENA ")).isPrefixOf (pyUpper line) ||
  strContains (pyUpper line) (chars ("PERSONAGGI")) ||
  strContains (pyUpper line) (chars ("ANTIPASTO")) ||
  strContains (pyUpper line) (chars ("PRIMI")) ||
  strContains (pyUpper line) (chars ("DOLCI")) ||
  strContains (pyUpper line) (chars ("CAFF"))

/-- The leading-parenthetical scanner of the old _clean_stage_dirs_start. -/
def stageAux (nested : Bool) : Str → Option Str
  | [] => none
  | c :: s =>
    if nested then
      if c = ')' then stageAux false s else stageAux true s
    else if c = ')' then some s
    else if c = '(' then stageAux true s
    else stageAux false s

/-- The old _clean_stage_dirs_start. -/
def cleanStageDirsStart (s : Str) : Str :=
  let s1 : Str :=
    match s with
    | '(' :: r =>
      match stageAux false r with
      | some rest => rest.dropWhile pySpace
      | none => s
    | _ => s
  pyStrip s1

/-- First-character class of the old speaker pattern. -/
def isUpperStart (c : Char) : Bool :=
  ('A' ≤ c && c ≤ 'Z') || ('À' ≤ c && c ≤ 'Ö') ||
  ('Ø' ≤ c && c ≤ 'Þ')

/-- Repeated-character class of the old speaker pattern. -/
def isNameChar (c : Char) : Bool :=
  ('A' ≤ c && c ≤ 'Z') || ('a' ≤ c && c ≤ 'z') ||
  ('À' ≤ c && c ≤ 'Ö') || ('Ø' ≤ c && c ≤ 'ö') ||
  ('ø' ≤ c && c ≤ 'ÿ') ||
  c = '’' || c = '\'' || c = ' ' || c = '.' || c = '-'

/-- The optional parenthetical group of the old speaker pattern. -/
def matchParenGroup (s : Str) : Option (Str × Str) :=
  match s with
  | '(' :: r =>
    match r.dropWhile (fun c => !(c = ')')) with
    | ')' :: rest => some ('(' :: r.takeWhile (fun c => !(c = ')')) ++ [')'], rest)
    | _ => none
  | _ => none

/-- The colon separator of the old speaker pattern. -/
def matchColonWs (s : Str) : Option Str :=
  match s.dropWhile pySpace with
  | ':' :: r => some (r.dropWhile pySpace)
  | _ => none

/-- One backtracking attempt of the old speaker pattern. -/
def trySpeakerSplit (c0 : Char) (tail : Str) (k : Nat) : Option (Str × Str) :=
  let s1 := tail.drop k
  match matchParenGroup s1 with
  | some (p, s2) =>
    match matchColonWs s2 with
    | some what => some (c0 :: (tail.take k ++ p), what)
    | none =>
      match matchColonWs s1 with
      | some what => some (c0 :: tail.take k, what)
      | none => none
  | none =>
    match matchColonWs s1 with
    | some what => some (c0 :: tail.take k, what)
    | none => none

/-- Greedy backtracking of the old speaker pattern. -/
def speakerTryK (c0 : Char) (tail : Str) : Nat → Option (Str × Str)
  | 0 => trySpeakerSplit c0 tail 0
  | Nat.succ k =>
    match trySpeakerSplit c0 tail (Nat.succ k) with
    | some r => some r
    | none => speakerTryK c0 tail k

/-- The old speaker_pat.match. -/
def speakerMatch (line : Str) : Option (Str × Str) :=
  match line with
  | [] => none
  | c :: tail =>
    if isUpperStart c then speakerTryK c tail (tail.takeWhile isNameChar).length
    else none

/-- The parenthetical removal on the old speaker name (scanner). -/
def rpAux : RpSt → Str → Str
  | RpSt.norm, [] => []
  | RpSt.ws buf, [] => buf
  | RpSt.inParen wbuf pbuf, [] => wbuf ++ pbuf
  | RpSt.skipws, [] => []
  | RpSt.norm, c :: s =>
    if c = '(' then rpAux (RpSt.inParen [] ['(']) s
    else if pySpace c then rpAux (RpSt.ws [c]) s
    else c :: rpAux RpSt.norm s
  | RpSt.ws buf, c :: s =>
    if c = '(' then rpAux (RpSt.inParen buf ['(']) s
    else if pySpace c then rpAux (RpSt.ws (buf ++ [c])) s
    else buf ++ c :: rpAux RpSt.norm s
  | RpSt.inParen wbuf pbuf, c :: s =>
    if c = ')' then rpAux RpSt.skipws s
    else rpAux (RpSt.inParen wbuf (pbuf ++ [c])) s
  | RpSt.skipws, c :: s =>
    if pySpace c then rpAux RpSt.skipws s
    else if c = '(' then rpAux (RpSt.inParen [] ['(']) s
    else c :: rpAux RpSt.norm s

/-- The parenthetical removal on the old speaker name. -/
def removeParens (s : Str) : Str := rpAux RpSt.norm s

/-- The whitespace-run collapsing on the old speaker name (scanner). -/
def csAux (skipping : Bool) : Str → Str
  | [] => []
  | c :: s =>
    if skipping then
      if pySpace c then csAux true s else c :: csAux false s
    else if pySpace c then
      match s with
      | [] => [c]
      | c2 :: s2 =>
        if pySpace c2 then ' ' :: csAux true s2
        else c :: c2 :: csAux false s2
    else c :: csAux false s

/-- The whitespace-run collapsing on the old speaker name. -/
def collapseSpaces (s : Str) : Str := csAux false s

/-- The old sentinel value. -/
def scena : Str := chars ("SCENA")

/-- Python truthiness of the old current_name. -/
def pyTruthyName : Option Str → Bool
  | none => false
  | some n => !n.isEmpty

/-- The old flush closure. -/
def flush (st : PState) : PState :=
  match st.currentName with
  | some n =>
    if n ≠ [] ∧ st.currentLines ≠ [] then
      let joined := pyStrip (List.intercalate ['\n'] st.currentLines)
      if joined ≠ [] then
        ⟨st.blocks ++ [⟨n, joined⟩], none, []⟩
      else ⟨st.blocks, none, []⟩
    else ⟨st.blocks, none, []⟩
  | none => ⟨st.blocks, none, []⟩

/-- The old line-loop body. -/
def processLine (st : PState) (rawLine : Str) : PState :=
  let line := pyStrip rawLine
  if line = [] then
    if pyTruthyName st.currentName ∧ st.currentLines ≠ [] ∧
        st.currentLines.getLast? ≠ some [] then
      ⟨st.blocks, st.currentName, st.currentLines ++ [[]]⟩
    else st
  else if isSectionHeading line then
    let st2 := flush st
    ⟨st2.blocks ++ [⟨scena, line⟩], st2.currentName, st2.currentLines⟩
  else
    match speakerMatch line with
    | some (who, what) =>
      let st2 := flush st
      let whoClean := collapseSpaces (pyStrip (removeParens who))
      let whatClean := cleanStageDirsStart what
      ⟨st2.blocks, some whoClean, if whatClean ≠ [] then [whatClean] else []⟩
    | none =>
      if line.head? = some '(' ∧ line.getLast? = some ')' then
        let st2 := flush st
        ⟨st2.blocks ++ [⟨scena, line⟩], st2.currentName, st2.currentLines⟩
      else if pyTruthyName st.currentName then
        let line2 := cleanStageDirsStart line
        if line2 ≠ [] then
          ⟨st.blocks, st.currentName, st.currentLines ++ [line2]⟩
        else st
      else ⟨st.blocks ++ [⟨scena, line⟩], st.currentName, st.currentLines⟩

/-- The old segmenter. -/
def segmentLines (lines : List Str) : List Block :=
  (flush (lines.foldl processLine ⟨[], none, []⟩)).blocks

/-- One step of the old compaction loop. -/
def compactStep (acc : List Block) (b : Block) : List Block :=
  match acc.getLast? with
  | some l =>
    if b.character = scena ∧ l.character = scena then
      acc.dropLast ++ [⟨l.character, pyStrip (l.text ++ '\n' :: b.text)⟩]
    else acc ++ [b]
  | none => acc ++ [b]

/-- The old compaction pass. -/
def compactBlocks (bs : List Block) : List Block :=
  bs.foldl compactStep []

/-- The old parser on the extracted per-page texts. -/
def parseScript (pages : List Str) : List Block :=
  compactBlocks (segmentLines (pySplitlines (precleanText
    (List.intercalate ['\n'] pages))))

end AppOld

namespace Copione

/-- Claim C6: the single input line with a leading stage direction yields
exactly one block with the direction stripped; a balanced parenthetical
with one nested level anchored at the start of the remainder is removed,
while a parenthetical elsewhere in the line is left untouched. -/
theorem c6_leading_stage_direction_stripped :
    parseScript [chars ("MARIO: (sorridendo) Ciao")] =
        [⟨chars ("MARIO"), chars ("Ciao")⟩] ∧
    cleanStageDirsStart (chars ("(a(b)c) Ciao")) = chars ("Ciao") ∧
    cleanStageDirsStart (chars ("Ciao (no)")) = chars ("Ciao (no)") :=
  ⟨rfl, rfl, rfl⟩

/-- Claim C7: a blank line inside an open block is preserved as a single
paragraph break; a second consecutive blank line adds no further marker. -/
theorem c7_blank_line_paragraph_break :
    parseScript [chars ("MARIO: Ciao\n\ncome va?")] =
        [⟨chars ("MARIO"), chars ("Ciao\n\ncome va?")⟩] ∧
    parseScript [chars ("MARIO: Ciao\n\n\ncome va?")] =
        [⟨chars ("MARIO"), chars ("Ciao\n\ncome va?")⟩] :=
  ⟨rfl, rfl⟩

/-- Claim C9: a speaker line whose dialogue remainder is empty after
stage-direction stripping, with no continuation lines, produces no block:
the final flush discards the open block with its empty line list. -/
theorem c9_empty_remainder_no_block :
    parseScript [chars ("MARIO: (ride)")] = [] ∧
    flush ⟨[], some (chars ("MARIO")), []⟩ = ⟨[], none, []⟩ :=
  ⟨rfl, rfl⟩

/-- Claim C1, counterexample: the whitespace-colon-whitespace
normalization of step 6 matches across a newline, so the two-line input
collapses to one line; line structure is not preserved. -/
theorem c1_counterexample :
    pySplitlines (chars ("a:\nb")) = [chars ("a:"), chars ("b")] ∧
    precleanText (chars ("a:\nb")) = chars ("a: b") ∧
    pySplitlines (precleanText (chars ("a:\nb"))) = [chars ("a: b")] ∧
    (pySplitlines (precleanText (chars ("a:\nb")))).length ≠
      (pySplitlines (chars ("a:\nb"))).length :=
  ⟨rfl, rfl, rfl, by decide⟩

end Copione

namespace Copione

/-! Pointwise equality of the two translations, one lemma per recursive
definition, assembled into the equivalence of the two parsers. -/

lemma oldEq_removeStars (s : Str) : AppOld.removeStars s = removeStars s := by
  induction s using removeStars.induct <;>
    simp [AppOld.removeStars, removeStars, *]

lemma oldEq_sluAux (s : Str) : ∀ st, AppOld.sluAux st s = sluAux st s := by
  induction s with
  | nil => intro st; cases st <;> rfl
  | cons c s ih => intro st; cases st <;> simp only [AppOld.sluAux, sluAux, ih]

lemma oldEq_stuAux (s : Str) : ∀ st, AppOld.stuAux st s = stuAux st s := by
  induction s with
  | nil => intro st; cases st <;> rfl
  | cons c s ih => intro st; cases st <;> simp only [AppOld.stuAux, stuAux, ih]

lemma oldEq_replEscOpen (s : Str) : AppOld.replEscOpen s = replEscOpen s := by
  induction s using replEscOpen.induct <;>
    simp [AppOld.replEscOpen, replEscOpen, *]

lemma oldEq_replEscClose (s : Str) : AppOld.replEscClose s = replEscClose s := by
  induction s using replEscClose.induct <;>
    simp [AppOld.replEscClose, replEscClose, *]

lemma oldEq_ncAux (s : Str) : ∀ st, AppOld.ncAux st s = ncAux st s := by
  induction s with
  | nil => intro st; cases st <;> rfl
  | cons c s ih => intro st; cases st <;> simp only [AppOld.ncAux, ncAux, ih]

lemma oldEq_ctAux (s : Str) : ∀ b, AppOld.ctAux b s = ctAux b s := by
  induction s with
  | nil => intro b; rfl
  | cons c s ih =>
    intro b
    simp only [AppOld.ctAux, ctAux, AppOld.isTabLike, isTabLike, ih]

lemma oldEq_precleanText (s : Str) : AppOld.precleanText s = precleanText s := by
  simp only [AppOld.precleanText, precleanText, AppOld.collapseTabs, collapseTabs,
    AppOld.normColons, normColons, AppOld.stripLeadUnd, stripLeadUnd,
    AppOld.stripTrailUnd, stripTrailUnd, AppOld.removeCR, removeCR,
    oldEq_removeStars, oldEq_sluAux, oldEq_stuAux, oldEq_replEscOpen,
    oldEq_replEscClose, oldEq_ncAux, oldEq_ctAux]

lemma oldEq_strContains (hay nee : Str) :
    AppOld.strContains hay nee = strContains hay nee := by
  induction hay with
  | nil => rfl
  | cons c t ih => simp only [AppOld.strContains, strContains, ih]

lemma oldEq_isSectionHeading (l : Str) :
    AppOld.isSectionHeading l = isSectionHeading l := by
  simp only [AppOld.isSectionHeading, isSectionHeading, oldEq_strContains]

lemma oldEq_stageAux (s : Str) : ∀ b, AppOld.stageAux b s = stageAux b s := by
  induction s with
  | nil => intro b; rfl
  | cons c s ih => intro b; simp only [AppOld.stageAux, stageAux, ih]

lemma oldEq_stageAux_fun : AppOld.stageAux = stageAux :=
  funext fun b => funext fun s => oldEq_stageAux s b

lemma oldEq_cleanStageDirsStart (s : Str) :
    AppOld.cleanStageDirsStart s = cleanStageDirsStart s := by
  unfold AppOld.cleanStageDirsStart cleanStageDirsStart
  rw [oldEq_stageAux_fun]

lemma oldEq_trySpeakerSplit : AppOld.trySpeakerSplit = trySpeakerSplit := rfl

lemma oldEq_speakerTryK (c0 : Char) (tail : Str) (k : Nat) :
    AppOld.speakerTryK c0 tail k = speakerTryK c0 tail k := by
  induction k with
  | zero => rfl
  | succ k ih =>
    simp only [AppOld.speakerTryK, speakerTryK, oldEq_trySpeakerSplit, ih]

lemma oldEq_isNameChar_fun : AppOld.isNameChar = isNameChar := rfl

lemma oldEq_speakerMatch (l : Str) : AppOld.speakerMatch l = speakerMatch l := by
  cases l with
  | nil => rfl
  | cons c tail =>
    simp only [AppOld.speakerMatch, speakerMatch, AppOld.isUpperStart,
      isUpperStart, oldEq_isNameChar_fun, oldEq_speakerTryK]

lemma oldEq_rpAux (s : Str) : ∀ st, AppOld.rpAux st s = rpAux st s := by
  induction s with
  | nil => intro st; cases st <;> rfl
  | cons c s ih => intro st; cases st <;> simp only [AppOld.rpAux, rpAux, ih]

lemma oldEq_csAux (b : Bool) (s : Str) : AppOld.csAux b s = csAux b s := by
  induction b, s using csAux.induct <;>
    · unfold AppOld.csAux csAux
      first
      | rfl
      | simp [*]

lemma oldEq_processLine (st : PState) (l : Str) :
    AppOld.processLine st l = processLine st l := by
  simp only [AppOld.processLine, processLine, AppOld.flush, flush,
    AppOld.pyTruthyName, pyTruthyName, AppOld.scena, scena,
    AppOld.collapseSpaces, collapseSpaces, AppOld.removeParens, removeParens,
    oldEq_isSectionHeading, oldEq_speakerMatch, oldEq_cleanStageDirsStart,
    oldEq_rpAux, oldEq_csAux]

lemma oldEq_segmentLines (ls : List Str) :
    AppOld.segmentLines ls = segmentLines ls := by
  have hfun : AppOld.processLine = processLine :=
    funext fun st => funext fun l => oldEq_processLine st l
  simp only [AppOld.segmentLines, segmentLines, hfun, AppOld.flush, flush]

/-- Claim C10: the parsing pipeline of src/app.py and the one of
src/app_old.py are extensionally equal on every per-page text list. -/
theorem c10_old_parser_equivalent (pages : List Str) :
    AppOld.parseScript pages = parseScript pages := by
  have hcs : AppOld.compactStep = compactStep := rfl
  simp only [AppOld.parseScript, parseScript, oldEq_precleanText,
    oldEq_segmentLines, AppOld.compactBlocks, compactBlocks, hcs]

end Copione

namespace Copione

/-! Newline counting, used to settle the line-structure claim about the
normalizer. -/

/-- Number of newline characters in a string. -/
def countNl : Str → Nat
  | [] => 0
  | c :: s => (if c = '\n' then 1 else 0) + countNl s

lemma countNl_nil : countNl [] = 0 := rfl

lemma countNl_cons (c : Char) (s : Str) :
    countNl (c :: s) = (if c = '\n' then 1 else 0) + countNl s := rfl

lemma countNl_append (a b : Str) :
    countNl (a ++ b) = countNl a + countNl b := by
  induction a with
  | nil => simp [countNl]
  | cons c a ih => simp [countNl_cons, ih, Nat.add_assoc]

lemma countNl_removeCR (s : Str) : countNl (removeCR s) = countNl s := by
  induction s with
  | nil => rfl
  | cons c s ih =>
    by_cases h : c = '\r'
    · subst h; simp [removeCR, List.filter, countNl_cons] at ih ⊢; simpa
    · simp only [removeCR, List.filter] at ih ⊢
      simp [h, countNl_cons, ih]

lemma countNl_removeStars (s : Str) : countNl (removeStars s) = countNl s := by
  induction s using removeStars.induct <;> simp [removeStars, countNl_cons, *]

lemma countNl_sluAux (s : Str) : ∀ st, countNl (sluAux st s) ≤ countNl s := by
  induction s with
  | nil => intro st; cases st <;> simp [sluAux, countNl_nil]
  | cons c s ih =>
    intro st
    cases st <;> simp only [sluAux] <;> split_ifs <;>
      simp only [countNl_cons] <;>
      first
      | exact le_trans (ih _) (Nat.le_add_left _ _)
      | exact Nat.add_le_add_left (ih _) _

/-- The pending buffer of the trailing-underscore scanner state. -/
def stuPending : StuSt → Str
  | StuSt.norm => []
  | StuSt.ws buf => buf
  | StuSt.und w u => w ++ u

lemma iteNl_underscore : (if ('_' : Char) = '\n' then (1 : Nat) else 0) = 0 := by
  decide

lemma iteNl_nl : (if ('\n' : Char) = '\n' then (1 : Nat) else 0) = 1 := by
  decide

lemma iteNl_colon : (if (':' : Char) = '\n' then (1 : Nat) else 0) = 0 := by
  decide

lemma iteNl_space : (if (' ' : Char) = '\n' then (1 : Nat) else 0) = 0 := by
  decide

lemma countNl_stuAux (s : Str) :
    ∀ st, countNl (stuAux st s) ≤ countNl (stuPending st) + countNl s := by
  induction s with
  | nil =>
    intro st
    cases st <;> simp [stuAux, stuPending, countNl_nil, countNl_append]
  | cons c s ih =>
    intro st
    have hnorm := ih StuSt.norm
    simp only [stuPending, countNl_nil, Nat.zero_add] at hnorm
    cases st with
    | norm =>
      simp only [stuAux, stuPending]
      split_ifs with hu hw
      · have h := ih (StuSt.und [] ['_'])
        subst hu
        simp only [stuPending, countNl_append, countNl_cons, countNl_nil,
          List.nil_append, iteNl_underscore] at h ⊢
        omega
      · have h := ih (StuSt.ws [c])
        simp only [stuPending, countNl_cons, countNl_nil] at h ⊢
        omega
      · simp only [countNl_cons, countNl_nil]
        omega
    | ws buf =>
      simp only [stuAux, stuPending]
      split_ifs with hu hw
      · have h := ih (StuSt.und buf ['_'])
        subst hu
        simp only [stuPending, countNl_append, countNl_cons, countNl_nil,
          iteNl_underscore] at h ⊢
        omega
      · have h := ih (StuSt.ws (buf ++ [c]))
        simp only [stuPending, countNl_append, countNl_cons, countNl_nil] at h ⊢
        omega
      · simp only [countNl_append, countNl_cons]
        omega
    | und wbuf ubuf =>
      simp only [stuAux, stuPending]
      split_ifs with hu hn hw
      · have h := ih (StuSt.und wbuf (ubuf ++ ['_']))
        subst hu
        simp only [stuPending, countNl_append, countNl_cons, countNl_nil,
          iteNl_underscore] at h ⊢
        omega
      · have h := ih (StuSt.ws ['\n'])
        subst hn
        simp only [stuPending, countNl_append, countNl_cons, countNl_nil,
          iteNl_nl] at h ⊢
        omega
      · have h := ih (StuSt.ws [c])
        simp only [stuPending, countNl_append, countNl_cons, countNl_nil] at h ⊢
        omega
      · simp only [countNl_append, countNl_cons]
        omega


lemma countNl_replEscOpen (s : Str) : countNl (replEscOpen s) = countNl s := by
  induction s using replEscOpen.induct <;> simp [replEscOpen, countNl_cons, *]

lemma countNl_replEscClose (s : Str) : countNl (replEscClose s) = countNl s := by
  induction s using replEscClose.induct <;> simp [replEscClose, countNl_cons, *]

/-- The pending buffer of the colon-normalization scanner state. -/
def ncPending : NcSt → Str
  | NcSt.norm => []
  | NcSt.ws buf => buf
  | NcSt.skipws => []

lemma countNl_ncAux (s : Str) :
    ∀ st, countNl (ncAux st s) ≤ countNl (ncPending st) + countNl s := by
  induction s with
  | nil =>
    intro st
    cases st <;> simp [ncAux, ncPending, countNl_nil]
  | cons c s ih =>
    intro st
    have hnorm := ih NcSt.norm
    have hskip := ih NcSt.skipws
    simp only [ncPending, countNl_nil, Nat.zero_add] at hnorm hskip
    cases st with
    | norm =>
      simp only [ncAux, ncPending]
      split_ifs with hcol hw
      · subst hcol
        simp only [countNl_cons, countNl_nil, iteNl_colon, iteNl_space]
        omega
      · have h := ih (NcSt.ws [c])
        simp only [ncPending, countNl_cons, countNl_nil] at h ⊢
        omega
      · simp only [countNl_cons]
        omega
    | ws buf =>
      simp only [ncAux, ncPending]
      split_ifs with hcol hw
      · subst hcol
        simp only [countNl_cons, countNl_nil, iteNl_colon, iteNl_space]
        omega
      · have h := ih (NcSt.ws (buf ++ [c]))
        simp only [ncPending, countNl_append, countNl_cons, countNl_nil] at h ⊢
        omega
      · simp only [countNl_append, countNl_cons]
        omega
    | skipws =>
      simp only [ncAux, ncPending]
      split_ifs with hcol hw
      · subst hcol
        simp only [countNl_cons, countNl_nil, iteNl_colon, iteNl_space]
        omega
      · simp only [countNl_cons]
        omega
      · simp only [countNl_cons]
        omega


lemma countNl_ctAux (s : Str) : ∀ b, countNl (ctAux b s) ≤ countNl s := by
  induction s with
  | nil => intro b; simp [ctAux]
  | cons c s ih =>
    intro b
    have h1 := ih true
    have h2 := ih false
    simp only [ctAux]
    split_ifs with ht hb
    · simp only [countNl_cons]
      omega
    · simp only [countNl_cons, iteNl_space]
      omega
    · simp only [countNl_cons]
      omega


/-- Claim C1, amended: the normalizer never inserts a newline, so the
newline count (hence the line count) never increases; steps 3, 4 and 6
can remove newlines when the whitespace their patterns match spans a
line break, as the counterexample shows. -/
theorem c1_preclean_newlines_never_increase (s : Str) :
    countNl (precleanText s) ≤ countNl s := by
  unfold precleanText collapseTabs normColons stripLeadUnd stripTrailUnd
  calc countNl (ctAux false (ncAux NcSt.norm (replEscClose (replEscOpen
          (stuAux StuSt.norm (sluAux (SluSt.norm true)
            (removeStars (removeCR s))))))))
      ≤ countNl (ncAux NcSt.norm (replEscClose (replEscOpen
          (stuAux StuSt.norm (sluAux (SluSt.norm true)
            (removeStars (removeCR s))))))) := countNl_ctAux _ _
    _ ≤ countNl (ncPending NcSt.norm) + countNl (replEscClose (replEscOpen
          (stuAux StuSt.norm (sluAux (SluSt.norm true)
            (removeStars (removeCR s)))))) := countNl_ncAux _ _
    _ = countNl (stuAux StuSt.norm (sluAux (SluSt.norm true)
          (removeStars (removeCR s)))) := by
        simp [ncPending, countNl_nil, countNl_replEscClose, countNl_replEscOpen]
    _ ≤ countNl (stuPending StuSt.norm) + countNl (sluAux (SluSt.norm true)
          (removeStars (removeCR s))) := countNl_stuAux _ _
    _ ≤ countNl (removeStars (removeCR s)) := by
        simpa [stuPending, countNl_nil] using countNl_sluAux
          (removeStars (removeCR s)) (SluSt.norm true)
    _ = countNl s := by rw [countNl_removeStars, countNl_removeCR]

end Copione

namespace Copione

/-! Properties of pyStrip, used by the block invariants. -/

lemma dropWhile_idem (p : Char → Bool) (l : Str) :
    (l.dropWhile p).dropWhile p = l.dropWhile p := by
  induction l with
  | nil => rfl
  | cons c l ih =>
    by_cases h : p c
    · simp [List.dropWhile_cons, h, ih]
    · simp [List.dropWhile_cons, h]

lemma head_not_of_dropWhile_eq_self (p : Char → Bool) (t : Str)
    (ht : t.dropWhile p = t) (c : Char) (r : Str) (hc : t = c :: r) :
    p c = false := by
  subst hc
  by_cases h : p c
  · rw [List.dropWhile_cons, if_pos h] at ht
    have := List.dropWhile_sublist (l := r) (p := p)
    have hlen : (r.dropWhile p).length ≤ r.length := this.length_le
    rw [ht] at hlen
    simp at hlen
  · exact eq_false_of_ne_true h

lemma dropWhile_of_prefix_eq_self (p : Char → Bool) (t u : Str)
    (ht : t.dropWhile p = t) (hu : u <+: t) : u.dropWhile p = u := by
  cases u with
  | nil => rfl
  | cons c r =>
    obtain ⟨w, hw⟩ := hu
    have hc : p c = false := by
      refine head_not_of_dropWhile_eq_self p t ht c (r ++ w) ?_
      rw [← hw]; rfl
    rw [List.dropWhile_cons, if_neg (by simp [hc])]

/-- Stripping is idempotent. -/
lemma pyStrip_idem (s : Str) : pyStrip (pyStrip s) = pyStrip s := by
  unfold pyStrip
  set t := s.dropWhile pySpace with hts
  have ht : t.dropWhile pySpace = t := dropWhile_idem pySpace s
  set u := (t.reverse.dropWhile pySpace).reverse with hus
  have hpre : u <+: t := by
    rw [hus]
    refine ⟨(t.reverse.takeWhile pySpace).reverse, ?_⟩
    rw [← List.reverse_append, List.takeWhile_append_dropWhile, List.reverse_reverse]
  have hu1 : u.dropWhile pySpace = u :=
    dropWhile_of_prefix_eq_self pySpace t u ht hpre
  rw [hu1, hus, List.reverse_reverse, dropWhile_idem]

/-- A string strips to nothing exactly when all its characters are
whitespace. -/
lemma pyStrip_eq_nil_iff (s : Str) :
    pyStrip s = [] ↔ ∀ c ∈ s, pySpace c = true := by
  unfold pyStrip
  rw [List.reverse_eq_nil_iff, List.dropWhile_eq_nil_iff]
  constructor
  · intro h c hc
    by_cases hmem : c ∈ s.dropWhile pySpace
    · exact h c (by simpa using hmem)
    · have hsplit := List.takeWhile_append_dropWhile (p := pySpace) (l := s)
      have : c ∈ s.takeWhile pySpace ++ s.dropWhile pySpace := by
        rw [hsplit]; exact hc
      rcases List.mem_append.mp this with h1 | h1
      · exact List.mem_takeWhile_imp h1
      · exact absurd h1 hmem
  · intro h c hc
    exact h c ((List.dropWhile_sublist (l := s) (p := pySpace)).subset
      (by simpa using hc))

/-- A string with a non-whitespace character somewhere does not strip to
nothing; used for the compaction merge. -/
lemma pyStrip_append_mid_ne_nil (a b : Str) (ha : pyStrip a ≠ []) :
    pyStrip (a ++ '\n' :: b) ≠ [] := by
  intro h
  rw [pyStrip_eq_nil_iff] at h
  apply ha
  rw [pyStrip_eq_nil_iff]
  intro c hc
  exact h c (by simp [hc])

end Copione

namespace Copione

/-! Claim C2: no emitted block has empty text after stripping. -/

/-- Every block of the list has non-empty text after stripping. -/
def BlocksOK (bs : List Block) : Prop := ∀ b ∈ bs, pyStrip b.text ≠ []

lemma blocksOK_append_one (bs : List Block) (name line : Str)
    (h : BlocksOK bs) (hline : pyStrip line = line) (hne : line ≠ []) :
    BlocksOK (bs ++ [⟨name, line⟩]) := by
  intro b hb
  rcases List.mem_append.mp hb with h1 | h1
  · exact h b h1
  · rw [List.mem_singleton] at h1
    subst h1
    show pyStrip line ≠ []
    rw [hline]
    exact hne

lemma blocksOK_flush (st : PState) (h : BlocksOK st.blocks) :
    BlocksOK (flush st).blocks := by
  simp only [flush]
  split
  · split_ifs with h1 h2
    · exact blocksOK_append_one _ _ _ h (pyStrip_idem _) h2
    · exact h
    · exact h
  · exact h


lemma blocksOK_processLine (st : PState) (raw : Str) (h : BlocksOK st.blocks) :
    BlocksOK (processLine st raw).blocks := by
  simp only [processLine]
  by_cases hblank : pyStrip raw = []
  · rw [if_pos hblank]
    split_ifs <;> exact h
  · rw [if_neg hblank]
    by_cases hhead : isSectionHeading (pyStrip raw) = true
    · rw [if_pos hhead]
      exact blocksOK_append_one _ _ _ (blocksOK_flush st h) (pyStrip_idem raw) hblank
    · rw [if_neg hhead]
      split
      · exact blocksOK_flush st h
      · split_ifs with hparen hcur hline2
        · exact blocksOK_append_one _ _ _ (blocksOK_flush st h) (pyStrip_idem raw)
            hblank
        · exact h
        · exact h
        · exact blocksOK_append_one _ _ _ h (pyStrip_idem raw) hblank


lemma blocksOK_foldl (lines : List Str) :
    ∀ st : PState, BlocksOK st.blocks →
      BlocksOK ((lines.foldl processLine st)).blocks := by
  induction lines with
  | nil => intro st h; exact h
  | cons l ls ih => intro st h; exact ih _ (blocksOK_processLine st l h)

lemma mem_of_getLast?_eq (bs : List Block) (b : Block)
    (h : bs.getLast? = some b) : b ∈ bs := by
  cases bs with
  | nil => simp at h
  | cons x xs =>
    have hne : x :: xs ≠ [] := by simp
    rw [List.getLast?_eq_getLast _ hne] at h
    have hb : (x :: xs).getLast hne = b := Option.some.inj h
    rw [← hb]
    exact List.getLast_mem hne

lemma blocksOK_compactStep (acc : List Block) (b : Block)
    (hacc : BlocksOK acc) (hb : pyStrip b.text ≠ []) :
    BlocksOK (compactStep acc b) := by
  unfold compactStep
  split
  · rename_i l hl
    split_ifs with hcond
    · intro x hx
      rcases List.mem_append.mp hx with h1 | h1
      · exact hacc x ((List.dropLast_sublist acc).subset h1)
      · rw [List.mem_singleton] at h1
        subst h1
        show pyStrip (pyStrip (l.text ++ '\n' :: b.text)) ≠ []
        rw [pyStrip_idem]
        exact pyStrip_append_mid_ne_nil _ _ (hacc l (mem_of_getLast?_eq acc l hl))
    · intro x hx
      rcases List.mem_append.mp hx with h1 | h1
      · exact hacc x h1
      · rw [List.mem_singleton] at h1; subst h1; exact hb
  · intro x hx
    rcases List.mem_append.mp hx with h1 | h1
    · exact hacc x h1
    · rw [List.mem_singleton] at h1; subst h1; exact hb


lemma blocksOK_foldl_compact (bs : List Block) :
    ∀ acc, BlocksOK bs → BlocksOK acc →
      BlocksOK (bs.foldl compactStep acc) := by
  induction bs with
  | nil => intro acc _ ha; exact ha
  | cons b t ih =>
    intro acc hbs ha
    exact ih _ (fun x hx => hbs x (List.mem_cons_of_mem _ hx))
      (blocksOK_compactStep acc b ha (hbs b (List.mem_cons_self _ _)))

/-- Claim C2: every block in the final output of the parser has non-empty
text after stripping surrounding whitespace; empty candidates are
discarded by flush and never emitted. -/
theorem c2_no_empty_blocks (pages : List Str) (b : Block)
    (hb : b ∈ parseScript pages) : pyStrip b.text ≠ [] := by
  unfold parseScript compactBlocks at hb
  refine blocksOK_foldl_compact _ [] ?_ (by intro x hx; simp at hx) b hb
  unfold segmentLines
  exact blocksOK_flush _ (blocksOK_foldl _ _ (by intro x hx; simp at hx))

/-- Witness for claim C2 at a concrete input. -/
theorem c2_no_empty_blocks_witness :
    (⟨chars ("MARIO"), chars ("Ciao")⟩ : Block) ∈
        parseScript [chars ("MARIO: Ciao")] ∧
    pyStrip (chars ("Ciao")) ≠ [] :=
  ⟨by decide,
   c2_no_empty_blocks [chars ("MARIO: Ciao")]
     ⟨chars ("MARIO"), chars ("Ciao")⟩ (by decide)⟩

end Copione

namespace Copione

/-! Claims C3 and C4: the sentinel merge invariant and the idempotence of
the compaction pass. -/

/-- No two consecutive blocks are both sentinel blocks. -/
def noTwoScena (bs : List Block) : Prop :=
  List.Chain' (fun x y => ¬(x.character = scena ∧ y.character = scena)) bs

lemma noTwoScena_compactStep (acc : List Block) (b : Block)
    (h : noTwoScena acc) : noTwoScena (compactStep acc b) := by
  unfold compactStep
  split
  · rename_i l hl
    split_ifs with hcond
    · have hne : acc ≠ [] := by
        intro h0; subst h0; simp at hl
      have hgl : acc.getLast hne = l := by
        have := List.getLast?_eq_getLast acc hne
        rw [hl] at this
        exact (Option.some.inj this).symm
      have hd : acc.dropLast ++ [l] = acc := by
        rw [← hgl]; exact List.dropLast_append_getLast hne
      unfold noTwoScena at h ⊢
      rw [← hd, List.chain'_append] at h
      obtain ⟨h1, _, h3⟩ := h
      rw [List.chain'_append]
      refine ⟨h1, List.chain'_singleton _, ?_⟩
      intro x hx y hy
      simp only [List.head?_cons, Option.mem_def, Option.some.injEq] at hy
      subst hy
      have := h3 x hx l (by simp)
      simpa using this
    · unfold noTwoScena at h ⊢
      rw [List.chain'_append]
      refine ⟨h, List.chain'_singleton _, ?_⟩
      intro x hx y hy
      simp only [List.head?_cons, Option.mem_def, Option.some.injEq] at hy
      subst hy
      rw [hl] at hx
      simp only [Option.mem_def, Option.some.injEq] at hx
      subst hx
      intro hcontra
      exact hcond ⟨hcontra.2, hcontra.1⟩
  · unfold noTwoScena
    rename_i hl
    have : acc = [] := List.getLast?_eq_none_iff.mp hl
    subst this
    simp

lemma noTwoScena_foldl_compact (bs : List Block) :
    ∀ acc, noTwoScena acc → noTwoScena (bs.foldl compactStep acc) := by
  induction bs with
  | nil => intro acc h; exact h
  | cons b t ih => intro acc h; exact ih _ (noTwoScena_compactStep acc b h)

lemma noTwoScena_compactBlocks (bs : List Block) :
    noTwoScena (compactBlocks bs) :=
  noTwoScena_foldl_compact bs [] (by simp [noTwoScena])

/-- Claim C3: in the final block sequence no two consecutive blocks are
both sentinel blocks; two adjacent sentinel blocks are merged with their
texts joined by a newline, as in the concrete scenario. -/
theorem c3_sentinel_merge_invariant :
    (∀ pages : List Str, noTwoScena (parseScript pages)) ∧
    parseScript [chars ("SCENA 1\n(Buio in sala)")] =
      [⟨scena, chars ("SCENA 1\n(Buio in sala)")⟩] :=
  ⟨fun _ => noTwoScena_compactBlocks _, rfl⟩

lemma compact_foldl_fixed (t : List Block) :
    ∀ acc, noTwoScena (acc ++ t) → t.foldl compactStep acc = acc ++ t := by
  induction t with
  | nil => intro acc _; simp
  | cons b t ih =>
    intro acc h
    have hstep : compactStep acc b = acc ++ [b] := by
      unfold compactStep
      split
      · rename_i l hl
        rw [if_neg]
        intro hcond
        unfold noTwoScena at h
        rw [List.chain'_append] at h
        obtain ⟨-, -, h3⟩ := h
        exact h3 l (by simp [hl]) b (by simp) ⟨hcond.2, hcond.1⟩
      · rfl
    rw [List.foldl_cons, hstep]
    have := ih (acc ++ [b]) (by simpa using h)
    simpa using this

/-- Claim C4: the compaction pass is idempotent on every block sequence. -/
theorem c4_compaction_idempotent (bs : List Block) :
    compactBlocks (compactBlocks bs) = compactBlocks bs := by
  have h := noTwoScena_compactBlocks bs
  show (compactBlocks bs).foldl compactStep [] = compactBlocks bs
  simpa using compact_foldl_fixed (compactBlocks bs) [] (by simpa using h)

end Copione

namespace Copione

/-! Claims C5 and C8: heading classification and the fallthrough to a
standalone sentinel block. -/

lemma flush_currentName (st : PState) : (flush st).currentName = none := by
  simp only [flush]
  split
  · split_ifs <;> rfl
  · rfl

lemma flush_currentLines (st : PState) : (flush st).currentLines = [] := by
  simp only [flush]
  split
  · split_ifs <;> rfl
  · rfl

/-- Claim C5: a non-blank line is classified as a section heading exactly
when, case-insensitively, it starts with the SCENA-space prefix or
contains one of the five keyword substrings; on a heading line the open
block is flushed and a sentinel block holding exactly the stripped line
is emitted immediately, with the accumulator left empty. -/
theorem c5_section_heading_classification (st : PState) (raw : Str) :
    (∀ line : Str, isSectionHeading line = true ↔
      ((chars ("SCENA ")).isPrefixOf (pyUpper line) = true ∨
       strContains (pyUpper line) (chars ("PERSONAGGI")) = true ∨
       strContains (pyUpper line) (chars ("ANTIPASTO")) = true ∨
       strContains (pyUpper line) (chars ("PRIMI")) = true ∨
       strContains (pyUpper line) (chars ("DOLCI")) = true ∨
       strContains (pyUpper line) (chars ("CAFF")) = true)) ∧
    (pyStrip raw ≠ [] → isSectionHeading (pyStrip raw) = true →
      processLine st raw =
        ⟨(flush st).blocks ++ [⟨scena, pyStrip raw⟩], none, []⟩) := by
  constructor
  · intro line
    simp only [isSectionHeading, Bool.or_eq_true]
    tauto
  · intro hne hhead
    simp only [processLine]
    rw [if_neg hne, if_pos hhead, flush_currentName, flush_currentLines]

/-- Witness for claim C5 at a concrete heading line. -/
theorem c5_section_heading_witness :
    pyStrip (chars ("  Scena 2  ")) ≠ [] ∧
    isSectionHeading (pyStrip (chars ("  Scena 2  "))) = true ∧
    processLine ⟨[], none, []⟩ (chars ("  Scena 2  ")) =
      ⟨[⟨scena, chars ("Scena 2")⟩], none, []⟩ :=
  ⟨by decide, by decide, by
    have h := (c5_section_heading_classification ⟨[], none, []⟩
      (chars ("  Scena 2  "))).2 (by decide) (by decide)
    rw [h]
    rfl⟩

/-- Claim C8: a non-blank line that is no heading, no speaker line and no
standalone parenthetical, seen while no block is open, is not rejected:
it is emitted as a standalone sentinel block holding exactly the stripped
line, with the rest of the state unchanged. -/
theorem c8_unclassified_line_standalone (st : PState) (raw : Str)
    (h1 : pyStrip raw ≠ [])
    (h2 : isSectionHeading (pyStrip raw) = false)
    (h3 : speakerMatch (pyStrip raw) = none)
    (h4 : ¬((pyStrip raw).head? = some '(' ∧ (pyStrip raw).getLast? = some ')'))
    (h5 : st.currentName = none) :
    processLine st raw =
      ⟨st.blocks ++ [⟨scena, pyStrip raw⟩], st.currentName, st.currentLines⟩ := by
  simp only [processLine]
  rw [if_neg h1, if_neg (by simp [h2])]
  split
  · rename_i pr heq
    rw [h3] at heq
    exact Option.noConfusion heq
  · rw [if_neg h4, h5]
    rw [if_neg (by decide : ¬ pyTruthyName none = true)]

/-- Witness for claim C8 at a concrete unclassified line. -/
theorem c8_unclassified_line_witness :
    pyStrip (chars ("ehi tu")) ≠ [] ∧
    isSectionHeading (pyStrip (chars ("ehi tu"))) = false ∧
    speakerMatch (pyStrip (chars ("ehi tu"))) = none ∧
    ¬((pyStrip (chars ("ehi tu"))).head? = some '(' ∧
      (pyStrip (chars ("ehi tu"))).getLast? = some ')') ∧
    processLine ⟨[], none, []⟩ (chars ("ehi tu")) =
      ⟨[⟨scena, chars ("ehi tu")⟩], none, []⟩ :=
  ⟨by decide, by decide, by decide, by decide, by
    have h := c8_unclassified_line_standalone ⟨[], none, []⟩ (chars ("ehi tu"))
      (by decide) (by decide) (by decide) (by decide) rfl
    rw [h]
    rfl⟩

end Copione
